import Mathlib

/-!
Verification development for the `marquez-python` client library.

The definitions below are a shallow embedding of the two client
personalities of the library:

* `MarquezClient` (src/marquez_client/client.py) — the query-capable,
  synchronous HTTP client, and
* `MarquezClientWO` (src/marquez_client/client_wo.py) — the write-only
  client that records fully formed requests through a sink.

Each client operation is embedded as a pure function returning an
`Outcome`: the ordered list of requests that were dispatched (to the
network for the synchronous personality, to the write-only sink for the
write-only personality) together with an optional `VError` describing a
raised `ValueError`.  Validation checks are embedded as
`Option VError`-valued functions mirroring the `if ...: raise`
statements of the source, in the source's order.

The repository's `models.py` (the closed enumerations) and
`constants.py` are not part of the provided sources; the enumerations
are modelled from the spec where noted.  `isinstance` enum checks are
made unrepresentable by the typed embedding (enum arguments carry the
enum type), as the spec's §4.2 suggests for programmer errors.
-/

set_option autoImplicit false

namespace Marquez

/-- Modelled from the spec: `models.py` is absent from the sources.  The
spec (§3, §9) describes the job type enumeration `BATCH, STREAM,
SERVICE, …` as a closed tagged variant set; members are tagged variants,
not strings. -/
inductive JobType where
  | BATCH
  | STREAM
  | SERVICE
deriving DecidableEq, Repr

/-- Modelled from the spec: the canonical name of a `JobType` member
(Python `job_type.name`). -/
def JobType.name : JobType → String
  | .BATCH => "BATCH"
  | .STREAM => "STREAM"
  | .SERVICE => "SERVICE"

/-- Modelled from the spec: dataset type enumeration `DB_TABLE, STREAM, …`
(§3 DatasetSpec). -/
inductive DatasetType where
  | DB_TABLE
  | STREAM
deriving DecidableEq, Repr

/-- Modelled from the spec: the wire value of a `DatasetType` member
(Python `dataset_type.value`, the canonical name string). -/
def DatasetType.value : DatasetType → String
  | .DB_TABLE => "DB_TABLE"
  | .STREAM => "STREAM"

/-- Modelled from the spec: source type enumeration `POSTGRESQL/MYSQL/…`
(§3 SourceRef). -/
inductive SourceType where
  | POSTGRESQL
  | MYSQL
deriving DecidableEq, Repr

/-- Modelled from the spec: the wire value of a `SourceType` member
(Python `source_type.value`). -/
def SourceType.value : SourceType → String
  | .POSTGRESQL => "POSTGRESQL"
  | .MYSQL => "MYSQL"

/-- The `ValueError`s raised by the clients, grouped by the message
pattern of each raise site (spec §7 taxonomy):
`missingField f` ↔ `ValueError(f"{f} must not be None")`,
`fieldTooLong f n l` ↔ `ValueError(f"{f} length is {n}, must be <= {l}")`,
`invalidUuid f` ↔ `ValueError(f"{f} must be a valid UUID")`,
`valueError msg` ↔ a raise with the literal message `msg`. -/
inductive VError where
  | missingField (field : String)
  | fieldTooLong (field : String) (len limit : Nat)
  | invalidUuid (field : String)
  | valueError (msg : String)
deriving DecidableEq, Repr

/-- HTTP methods used by the clients. -/
inductive Method where
  | GET
  | POST
  | PUT
deriving DecidableEq, Repr

/-- A dataset reference, as passed by callers in the `input_dataset` /
`output_dataset` lists of `create_job`. -/
structure DatasetRef where
  namespaceName : String
  name : String
deriving DecidableEq, Repr

/-- A dataset field dict, as produced by `utils.make_field` and passed in
the `fields` list of `create_dataset`. -/
structure FieldDict where
  name : String
  type : String
  description : Option String
deriving DecidableEq, Repr

/-- A JSON payload value.  Python dict values occurring in the shaped
payloads: strings, caller-supplied lists/maps passed through verbatim,
and — in the query client's `create_job` — a raw `JobType` enum member. -/
inductive JValue where
  | str (v : String)
  | refList (v : List DatasetRef)
  | fieldList (v : List FieldDict)
  | strList (v : List String)
  | strMap (v : List (String × String))
  | jobType (v : JobType)
deriving DecidableEq, Repr

/-- A shaped JSON body: an ordered association list of wire keys. -/
abbrev Payload := List (String × JValue)

/-- A fully formed request as handed to the transport (synchronous call
or write-only sink record). -/
structure Request where
  method : Method
  path : String
  payload : Option Payload
deriving DecidableEq, Repr

/-- The observable result of one client operation: the requests
dispatched, in order, and the raised `ValueError` if any. -/
structure Outcome where
  dispatched : List Request
  error : Option VError
deriving DecidableEq, Repr

/-! ### Validation checks -/

/-- First failing check of an ordered check list (the first `raise` of
the corresponding `if`-chain). -/
def firstErr (cs : List (Option VError)) : Option VError :=
  cs.findSome? id

/-- Run an ordered check list; on the first failure nothing has been
dispatched and the error is raised, otherwise continue with `k`. -/
def checkedThen (cs : List (Option VError)) (k : Outcome) : Outcome :=
  match firstErr cs with
  | some e => ⟨[], some e⟩
  | none => k

/-- Run an ordered check list; on the first failure nothing is
dispatched, otherwise dispatch `reqs`. -/
def checked (cs : List (Option VError)) (reqs : List Request) : Outcome :=
  checkedThen cs ⟨reqs, none⟩

/-- `if not v: raise ValueError(f'{name} must not be None')` for a string
argument (Python falsiness of `str` is emptiness). -/
def checkNotNone (v name : String) : Option VError :=
  if v = "" then some (.missingField name) else none

/-- `if len(v) > limit: raise ValueError(...)` — the inline length checks
of `client.py`. -/
def checkMaxLen (v name : String) (limit : Nat) : Option VError :=
  if v.length > limit then some (.fieldTooLong name v.length limit) else none

/-- Python truthiness of an optional string argument (`None` or `''` are
falsy). -/
def pyBlankStr : Option String → Bool
  | none => true
  | some s => s = ""

/-- Python truthiness of an optional list argument (`None` or `[]` are
falsy). -/
def pyBlankList {α : Type} : Option (List α) → Bool
  | none => true
  | some l => l.isEmpty

/-! ### Percent-encoding (`six.moves.urllib.parse.quote` with `safe=''`) -/

/-- UTF-8 encoding of one code point, as Python `str.encode('utf-8')`
produces byte-wise. -/
def utf8Bytes (c : Char) : List Nat :=
  let n := c.toNat
  if n < 0x80 then [n]
  else if n < 0x800 then [0xC0 + n / 0x40, 0x80 + n % 0x40]
  else if n < 0x10000 then
    [0xE0 + n / 0x1000, 0x80 + (n / 0x40) % 0x40, 0x80 + n % 0x40]
  else
    [0xF0 + n / 0x40000, 0x80 + (n / 0x1000) % 0x40,
     0x80 + (n / 0x40) % 0x40, 0x80 + n % 0x40]

/-- The bytes `urllib.parse.quote` never escapes: ASCII letters, digits,
and `_.-~` (with `safe=''` nothing else is spared). -/
def isSafeByte (b : Nat) : Bool :=
  (65 ≤ b ∧ b ≤ 90) ∨ (97 ≤ b ∧ b ≤ 122) ∨ (48 ≤ b ∧ b ≤ 57) ∨
    b = 45 ∨ b = 46 ∨ b = 95 ∨ b = 126

/-- Upper-case hexadecimal digit of a value `< 16`. -/
def hexDigitUpper (n : Nat) : Char :=
  if n < 10 then Char.ofNat (48 + n) else Char.ofNat (55 + n)

/-- Percent-encoding of one byte with the empty safe set. -/
def quoteByte (b : Nat) : List Char :=
  if isSafeByte b then [Char.ofNat b]
  else ['%', hexDigitUpper (b / 16), hexDigitUpper (b % 16)]

/-- `quote(arg.encode('utf-8'), safe='')`. -/
def quote (s : String) : String :=
  ⟨(s.data.flatMap utf8Bytes).flatMap quoteByte⟩

/-! ### `str.format` with positional `{i}` placeholders

Only the positional-index subset used by the clients' route templates is
modelled; a template/argument-count mismatch is a fatal programmer error
per spec §4.2 and is not exercised (out-of-range indices are rendered as
the empty string here). -/

/-- Parse the digits of a `{i}` placeholder up to the closing brace. -/
def parseIndex : List Char → Nat → Option (Nat × List Char)
  | [], _ => none
  | c :: rest, acc =>
    if c = '\x7d' then some (acc, rest)
    else if c.isDigit then parseIndex rest (acc * 10 + (c.toNat - 48))
    else none

/-- Substitute positional arguments into a template's `{i}` placeholders
(fuel-based recursion; `parseIndex` always consumes at least one
character of the template, so fuel equal to the template length is
enough). -/
def formatAux (args : List String) : Nat → List Char → List Char
  | 0, l => l
  | _ + 1, [] => []
  | fuel + 1, c :: rest =>
    if c = '{' then
      match parseIndex rest 0 with
      | some (i, rest2) =>
        (args.getD i "").data ++ formatAux args fuel rest2
      | none => c :: formatAux args fuel rest
    else c :: formatAux args fuel rest

/-- Python `template.format(*args)` on the clients' route templates. -/
def pyFormat (template : String) (args : List String) : String :=
  ⟨formatAux args template.data.length template.data⟩

/-- `MarquezClient._url` / `MarquezClientWO._url`: percent-encode each
positional argument with the empty safe set, substitute into the
template, and prefix the API base. -/
def url (api_base path : String) (args : List String) : String :=
  api_base ++ pyFormat path (args.map quote)

/-! ### CPython `uuid.UUID(str)` acceptance

`MarquezClientWO._is_valid_uuid` delegates to `uuid.UUID(str(value))` and
maps its `ValueError` to `"{name} must be a valid UUID"`.  CPython's
constructor normalizes the string first:
`hex.replace('urn:', '').replace('uuid:', '').strip('{\x7d').replace('-', '')`,
requires exactly 32 remaining characters, and parses them with
`int(hex, 16)` (which itself allows surrounding whitespace, one sign,
an optional `0x` prefix and single underscores between digits). -/

/-- If `pat` is a prefix of the list, return the remainder. -/
def chopLit : List Char → List Char → Option (List Char)
  | [], l => some l
  | _ :: _, [] => none
  | p :: ps, c :: cs => if p = c then chopLit ps cs else none

/-- Remove every occurrence of `pat`, scanning left to right
(Python `str.replace(pat, '')`), with explicit fuel. -/
def removeSubAux (pat : List Char) : Nat → List Char → List Char
  | 0, l => l
  | _ + 1, [] => []
  | fuel + 1, c :: rest =>
    match chopLit pat (c :: rest) with
    | some rem => removeSubAux pat fuel rem
    | none => c :: removeSubAux pat fuel rest

/-- Python `s.replace(pat, '')` on char lists (`pat` non-empty). -/
def removeSub (pat : String) (s : List Char) : List Char :=
  removeSubAux pat.data s.length s

/-- Python `s.strip(chars)`: drop the given characters from both ends. -/
def stripBoth (p : Char → Bool) (cs : List Char) : List Char :=
  ((cs.dropWhile p).reverse.dropWhile p).reverse

/-- ASCII whitespace accepted around Python integer literals. -/
def isPyWs (c : Char) : Bool :=
  c = ' ' ∨ c = '\t' ∨ c = '\n' ∨ c = '\r' ∨ c = '\x0b' ∨ c = '\x0c'

/-- Hexadecimal digit (either case). -/
def isHexDig (c : Char) : Bool :=
  ('0' ≤ c ∧ c ≤ '9') ∨ ('a' ≤ c ∧ c ≤ 'f') ∨ ('A' ≤ c ∧ c ≤ 'F')

/-- Numeric value of a hexadecimal digit character. -/
def hexVal (c : Char) : Nat :=
  if c ≤ '9' then c.toNat - 48
  else if c ≤ 'F' then c.toNat - 55
  else c.toNat - 87

/-- Tail of a Python base-16 digit string: hex digits with single
underscores allowed only between digits. -/
def hexTail : List Char → Bool
  | [] => true
  | c :: rest =>
    if isHexDig c then hexTail rest
    else if c = '_' then
      match rest with
      | [] => false
      | d :: _ => isHexDig d && hexTail rest
    else false

/-- Does CPython `int(s, 16)` accept this character sequence? -/
def pyInt16Ok (cs : List Char) : Bool :=
  let t0 := stripBoth isPyWs cs
  let t1 := match t0 with
    | c :: r => if c = '+' ∨ c = '-' then r else c :: r
    | [] => []
  let t2 := match t1 with
    | '0' :: x :: rest =>
      if x = 'x' ∨ x = 'X' then
        match rest with
        | '_' :: r2 => r2
        | _ => rest
      else '0' :: x :: rest
    | l => l
  match t2 with
  | [] => false
  | c :: rest => isHexDig c && hexTail rest

/-- Does CPython `uuid.UUID(s)` accept the string (no exception)? -/
def pyUuidOk (s : String) : Bool :=
  let cs := removeSub "uuid:" (removeSub "urn:" s.data)
  let cs := removeSub "-" (stripBoth (fun c => c = '{' ∨ c = '\x7d') cs)
  cs.length = 32 && pyInt16Ok cs

/-- Percent-decoding, back to bytes: the inverse direction used to state
that `quote` encodes each byte exactly once (no double-encoding). -/
def unquoteBytes : List Char → Option (List Nat)
  | [] => some []
  | c :: rest =>
    if c = '%' then
      match rest with
      | h1 :: h2 :: rest2 =>
        if isHexDig h1 ∧ isHexDig h2 then
          (unquoteBytes rest2).map (fun l => (hexVal h1 * 16 + hexVal h2) :: l)
        else none
      | _ => none
    else (unquoteBytes rest).map (fun l => c.toNat :: l)

/-! ### Query-capable client construction (`MarquezClient.__init__`) -/

/-- A Python value reaching the `port` variable of
`MarquezClient.__init__`: an `int` when passed explicitly, a `str` when
it came from `os.environ` (environment values are always strings). -/
inductive PyPort where
  | pint (n : Int)
  | pstr (s : String)
deriving DecidableEq, Repr

/-- Python truthiness of a port value (`0` and `''` are falsy). -/
def PyPort.truthy : PyPort → Bool
  | .pint n => n ≠ 0
  | .pstr s => s ≠ ""

/-- Python `port == k` for an `int` literal `k`: a string never compares
equal to an integer. -/
def PyPort.eqInt : PyPort → Int → Bool
  | .pint n, k => n = k
  | .pstr _, _ => false

/-- `f'{port}'`. -/
def PyPort.render : PyPort → String
  | .pint n => toString n
  | .pstr s => s

/-- The numeric reading of the effective port, for stating what "the
port is 8080" means independently of its Python dynamic type (a digit
string reads as the number it spells). -/
def PyPort.numVal : PyPort → Option Int
  | .pint n => some n
  | .pstr s =>
    if s ≠ "" ∧ s.data.all (fun c => c.isDigit) then
      some (s.data.foldl (fun a c => a * 10 + (c.toNat - 48)) 0 : Nat)
    else none

/-- `port or os.environ.get('MARQUEZ_PORT', DEFAULT_PORT)` — the
effective port of `MarquezClient.__init__`: a falsy or absent explicit
argument falls back to the environment value (a string) and then to the
default. -/
def effectivePort (arg : Option PyPort) (envPort : Option String)
    (defaultPort : PyPort) : PyPort :=
  let fallback := match envPort with
    | some s => PyPort.pstr s
    | none => defaultPort
  match arg with
  | some p => if p.truthy then p else fallback
  | none => fallback

/-- The base-URL computation of `MarquezClient.__init__` given the
resolved protocol, host and port: the port segment is dropped exactly
when `not port or port == 8080 or port == 80`. -/
def apiBaseOf (protocol host : String) (port : PyPort) : String :=
  if ¬ port.truthy ∨ port.eqInt 8080 ∨ port.eqInt 80 then
    protocol ++ "://" ++ host ++ "/" ++ "api/v1"
  else
    protocol ++ "://" ++ host ++ ":" ++ port.render ++ "/" ++ "api/v1"

/-- `MarquezClient.__init__`'s `_api_base`, from the explicit `port`
argument, the `MARQUEZ_PORT` environment value and the (unknown, missing
`constants.py`) `DEFAULT_PORT`.  `protocol` and `host` are taken after
their own analogous or-chains, which do not affect the port segment. -/
def initApiBase (protocol host : String) (portArg : Option PyPort)
    (envPort : Option String) (defaultPort : PyPort) : String :=
  apiBaseOf protocol host (effectivePort portArg envPort defaultPort)

/-! ### Shared payload shaping helpers

Each `if value: payload[key] = value` statement of the source becomes an
`opt…Entry` fragment appended to the required-field prefix, preserving
the source's insertion order. -/

/-- `if v: payload[key] = v` for an optional string argument. -/
def optStrEntry (key : String) (v : Option String) : Payload :=
  match v with
  | some s => if s = "" then [] else [(key, .str s)]
  | none => []

/-- `if v: payload[key] = v` for an optional list argument, injected into
`JValue` by `inj`. -/
def optListEntry {α : Type} (key : String) (v : Option (List α))
    (inj : List α → JValue) : Payload :=
  match v with
  | some l => if l.isEmpty then [] else [(key, inj l)]
  | none => []

/-! ### Query-capable client (`client.py`) -/

/-- The length-limit constants of `client.py`
(`_NAMESPACE_LENGTH_LIMIT` …): a single 1024-character ceiling. -/
def NAMESPACE_LENGTH_LIMIT : Nat := 1024

/-- `_SOURCE_LENGTH_LIMIT` of `client.py`. -/
def SOURCE_LENGTH_LIMIT : Nat := 1024

/-- `_DATASET_LENGTH_LIMIT` of `client.py`. -/
def DATASET_LENGTH_LIMIT : Nat := 1024

/-- `_JOB_LENGTH_LIMIT` of `client.py`. -/
def JOB_LENGTH_LIMIT : Nat := 1024

/-- The query-capable client: its only state is the immutable API base
URL computed by `__init__` (timeout and default namespace do not affect
the embedded behaviour). -/
structure MarquezClient where
  api_base : String
deriving DecidableEq, Repr

/-- Payload block of `MarquezClient.create_namespace` (and, identically,
of `MarquezClientWO.create_namespace`). -/
def namespacePayload (owner_name : String) (description : Option String) :
    Payload :=
  [("ownerName", .str owner_name)] ++ optStrEntry "description" description

/-- Payload block of `create_source` (identical in both clients). -/
def sourcePayload (source_type : SourceType) (connection_url : String)
    (description : Option String) : Payload :=
  [("type", .str source_type.value), ("connectionUrl", .str connection_url)]
    ++ optStrEntry "description" description

/-- Payload block of `MarquezClient.create_dataset`. -/
def datasetPayload (dataset_type : DatasetType)
    (physical_name source_name : String)
    (description run_id : Option String)
    (fields : Option (List FieldDict)) (tags : Option (List String))
    (schema_location : Option String) : Payload :=
  [("type", .str dataset_type.value), ("physicalName", .str physical_name),
   ("sourceName", .str source_name)]
    ++ optStrEntry "description" description
    ++ optStrEntry "runId" run_id
    ++ optListEntry "fields" fields .fieldList
    ++ optListEntry "tags" tags .strList
    ++ optStrEntry "schemaLocation" schema_location

/-- Payload block of `MarquezClient.create_job`: note the raw `JobType`
member stored under `'type'`, and `input_dataset or []` /
`output_dataset or []` always present. -/
def jobPayload (job_type : JobType) (location : Option String)
    (input_dataset output_dataset : Option (List DatasetRef))
    (description : Option String)
    (context : Option (List (String × String))) : Payload :=
  [("inputs", .refList (input_dataset.getD [])),
   ("outputs", .refList (output_dataset.getD [])),
   ("type", .jobType job_type)]
    ++ optListEntry "context" context .strMap
    ++ optStrEntry "location" location
    ++ optStrEntry "description" description

/-- Payload block of `create_job_run` (identical in both clients). -/
def jobRunPayload (nominal_start_time nominal_end_time : Option String)
    (run_args : Option (List (String × String))) : Payload :=
  optStrEntry "nominalStartTime" nominal_start_time
    ++ optStrEntry "nominalEndTime" nominal_end_time
    ++ optListEntry "runArgs" run_args .strMap

/-- `MarquezClient.create_namespace`. -/
def MarquezClient.create_namespace (c : MarquezClient)
    (namespace_name owner_name : String) (description : Option String) :
    Outcome :=
  checked
    [checkNotNone namespace_name "namespace_name",
     checkMaxLen namespace_name "namespace_name" NAMESPACE_LENGTH_LIMIT,
     checkNotNone owner_name "owner_name"]
    [⟨.PUT, url c.api_base "/namespaces/{0}" [namespace_name],
      some (namespacePayload owner_name description)⟩]

/-- `MarquezClient.create_source`.  The `isinstance(source_type,
SourceType)` check is unrepresentable in the typed embedding. -/
def MarquezClient.create_source (c : MarquezClient)
    (source_name : String) (source_type : SourceType)
    (connection_url : String) (description : Option String) : Outcome :=
  checked
    [checkNotNone source_name "source_name",
     checkMaxLen source_name "source_name" SOURCE_LENGTH_LIMIT,
     checkNotNone connection_url "connection_url"]
    [⟨.PUT, url c.api_base "/sources/{0}" [source_name],
      some (sourcePayload source_type connection_url description)⟩]

/-- The `STREAM`-requires-`schema_location` cross-field check of
`MarquezClient.create_dataset`. -/
def streamCheck (dataset_type : DatasetType)
    (schema_location : Option String) : Option VError :=
  if dataset_type = .STREAM ∧ pyBlankStr schema_location then
    some (.valueError "STREAM type datasets must have schema_location")
  else none

/-- `MarquezClient.create_dataset`. -/
def MarquezClient.create_dataset (c : MarquezClient)
    (namespace_name dataset_name : String) (dataset_type : DatasetType)
    (physical_name source_name : String)
    (description run_id schema_location : Option String)
    (fields : Option (List FieldDict)) (tags : Option (List String)) :
    Outcome :=
  checked
    [checkNotNone namespace_name "namespace_name",
     checkMaxLen namespace_name "namespace_name" NAMESPACE_LENGTH_LIMIT,
     checkNotNone dataset_name "dataset_name",
     checkMaxLen dataset_name "dataset_name" DATASET_LENGTH_LIMIT,
     streamCheck dataset_type schema_location,
     checkNotNone physical_name "physical_name",
     checkNotNone source_name "source_name",
     checkMaxLen source_name "source_name" SOURCE_LENGTH_LIMIT]
    [⟨.PUT, url c.api_base "/namespaces/{0}/datasets/{1}"
        [namespace_name, dataset_name],
      some (datasetPayload dataset_type physical_name source_name
        description run_id fields tags schema_location)⟩]

/-- `MarquezClient.create_job`. -/
def MarquezClient.create_job (c : MarquezClient)
    (namespace_name job_name : String) (job_type : JobType)
    (location : Option String)
    (input_dataset output_dataset : Option (List DatasetRef))
    (description : Option String)
    (context : Option (List (String × String))) : Outcome :=
  checked
    [checkNotNone namespace_name "namespace_name",
     checkMaxLen namespace_name "namespace_name" NAMESPACE_LENGTH_LIMIT,
     checkNotNone job_name "job_name",
     checkMaxLen job_name "job_name" JOB_LENGTH_LIMIT]
    [⟨.PUT, url c.api_base "/namespaces/{0}/jobs/{1}"
        [namespace_name, job_name],
      some (jobPayload job_type location input_dataset output_dataset
        description context)⟩]

/-- `MarquezClient._mark_job_run_as`: `POST /jobs/runs/{0}/{1}` with an
empty payload after the `run_id` presence check. -/
def MarquezClient.mark_job_run_as (c : MarquezClient)
    (run_id action : String) : Outcome :=
  checked [checkNotNone run_id "run_id"]
    [⟨.POST, url c.api_base "/jobs/runs/{0}/{1}" [run_id, action],
      some []⟩]

/-- `MarquezClient.create_job_run`.  `response_run_id` stands for the
`'runId'` field of the decoded creation response (the service-assigned
run id) that the `mark_as_running` branch reads back; the branch then
runs `mark_job_run_as_started`, whose presence check happens after the
creation request was already dispatched. -/
def MarquezClient.create_job_run (c : MarquezClient)
    (namespace_name job_name : String)
    (nominal_start_time nominal_end_time : Option String)
    (run_args : Option (List (String × String)))
    (mark_as_running : Bool) (response_run_id : String) : Outcome :=
  checkedThen
    [checkNotNone namespace_name "namespace_name",
     checkMaxLen namespace_name "namespace_name" NAMESPACE_LENGTH_LIMIT,
     checkNotNone job_name "job_name",
     checkMaxLen job_name "job_name" JOB_LENGTH_LIMIT] <|
    let creation : Request :=
      ⟨.POST, url c.api_base "/namespaces/{0}/jobs/{1}/runs"
        [namespace_name, job_name],
       some (jobRunPayload nominal_start_time nominal_end_time run_args)⟩
    if mark_as_running then
      let started := c.mark_job_run_as response_run_id "start"
      ⟨creation :: started.dispatched, started.error⟩
    else ⟨[creation], none⟩

/-! ### Write-only client (`client_wo.py`) -/

namespace MarquezClientWO

/-- `_API_PATH` of `client_wo.py`: the write-only client's `_api_base` is
this constant (the constructor's `url` argument is unused). -/
def API_PATH : String := "/api/v1"

/-- `MarquezClientWO._is_none`: `if not value: raise
ValueError(f"{name} must not be None")`. -/
def is_none (v name : String) : Option VError :=
  if v = "" then some (.missingField name) else none

/-- `MarquezClientWO._check_name_length`: presence first, then a
64-character limit for `namespace_name`/`owner_name`/`source_name` and a
255-character limit for every other name. -/
def check_name_length (v name : String) : Option VError :=
  match is_none v name with
  | some e => some e
  | none =>
    if name = "namespace_name" ∨ name = "owner_name" ∨ name = "source_name"
    then
      if v.length > 64 then some (.fieldTooLong name v.length 64) else none
    else
      if v.length > 255 then some (.fieldTooLong name v.length 255) else none

/-- `MarquezClientWO._is_valid_uuid`: presence first, then CPython
`uuid.UUID(str(value))` acceptance. -/
def is_valid_uuid (v name : String) : Option VError :=
  match is_none v name with
  | some e => some e
  | none => if pyUuidOk v then none else some (.invalidUuid name)

/-- `MarquezClientWO.create_namespace`. -/
def create_namespace (namespace_name owner_name : String)
    (description : Option String) : Outcome :=
  checked
    [check_name_length namespace_name "namespace_name",
     check_name_length owner_name "owner_name"]
    [⟨.PUT, url API_PATH "/namespaces/{0}" [namespace_name],
      some (namespacePayload owner_name description)⟩]

/-- `MarquezClientWO.create_source`.  `_is_valid_connection_url` is just
the presence check. -/
def create_source (source_name : String) (source_type : SourceType)
    (connection_url : String) (description : Option String) : Outcome :=
  checked
    [check_name_length source_name "source_name",
     is_none connection_url "connection_url"]
    [⟨.PUT, url API_PATH "/sources/{0}" [source_name],
      some (sourcePayload source_type connection_url description)⟩]

/-- The `STREAM`-requires-`schema_location` check of
`MarquezClientWO.create_dataset`: `_is_none(schema_location,
'schema_location')`, run only for `STREAM` datasets. -/
def streamCheckWO (dataset_type : DatasetType)
    (schema_location : Option String) : Option VError :=
  if dataset_type = .STREAM then
    if pyBlankStr schema_location then
      some (.missingField "schema_location")
    else none
  else none

/-- Payload block of `MarquezClientWO.create_dataset`: `runId` is a
required field here. -/
def datasetPayloadWO (dataset_type : DatasetType)
    (physical_name source_name run_id : String)
    (description : Option String) (fields : Option (List FieldDict))
    (tags : Option (List String)) (schema_location : Option String) :
    Payload :=
  [("type", .str dataset_type.value), ("physicalName", .str physical_name),
   ("sourceName", .str source_name), ("runId", .str run_id)]
    ++ optStrEntry "description" description
    ++ optListEntry "fields" fields .fieldList
    ++ optListEntry "tags" tags .strList
    ++ optStrEntry "schemaLocation" schema_location

/-- `MarquezClientWO.create_dataset` (`run_id` is a required argument). -/
def create_dataset (namespace_name dataset_name : String)
    (dataset_type : DatasetType) (physical_name source_name run_id : String)
    (description schema_location : Option String)
    (fields : Option (List FieldDict)) (tags : Option (List String)) :
    Outcome :=
  checked
    [check_name_length namespace_name "namespace_name",
     check_name_length dataset_name "dataset_name",
     streamCheckWO dataset_type schema_location,
     is_none run_id "run_id",
     check_name_length physical_name "physical_name",
     check_name_length source_name "source_name"]
    [⟨.PUT, url API_PATH "/namespaces/{0}/datasets/{1}"
        [namespace_name, dataset_name],
      some (datasetPayloadWO dataset_type physical_name source_name run_id
        description fields tags schema_location)⟩]

/-- Payload block of `MarquezClientWO.create_job`: `'type'` carries the
canonical name string `job_type.name`. -/
def jobPayloadWO (job_type : JobType) (location : Option String)
    (input_dataset output_dataset : Option (List DatasetRef))
    (description : Option String)
    (context : Option (List (String × String))) : Payload :=
  [("inputs", .refList (input_dataset.getD [])),
   ("outputs", .refList (output_dataset.getD [])),
   ("type", .str job_type.name)]
    ++ optListEntry "context" context .strMap
    ++ optStrEntry "location" location
    ++ optStrEntry "description" description

/-- `MarquezClientWO.create_job`. -/
def create_job (namespace_name job_name : String) (job_type : JobType)
    (location : Option String)
    (input_dataset output_dataset : Option (List DatasetRef))
    (description : Option String)
    (context : Option (List (String × String))) : Outcome :=
  checked
    [check_name_length namespace_name "namespace_name",
     check_name_length job_name "job_name"]
    [⟨.PUT, url API_PATH "/namespaces/{0}/jobs/{1}"
        [namespace_name, job_name],
      some (jobPayloadWO job_type location input_dataset output_dataset
        description context)⟩]

/-- `MarquezClientWO.__mark_job_run_as`: the `run_id` UUID validation
happens here, then `POST /jobs/runs/{0}/{1}` with an empty payload. -/
def mark_job_run_as (run_id action : String) : Outcome :=
  checked [is_valid_uuid run_id "run_id"]
    [⟨.POST, url API_PATH "/jobs/runs/{0}/{1}" [run_id, action], some []⟩]

/-- `MarquezClientWO.create_job_run`: name checks only, then the creation
`POST` (with `run_id` in the `external_id` query parameter), and — only
when `mark_as_running` — `mark_job_run_as_started`, whose UUID check
runs after the creation request has already been recorded. -/
def create_job_run (namespace_name job_name run_id : String)
    (nominal_start_time nominal_end_time : Option String)
    (run_args : Option (List (String × String)))
    (mark_as_running : Bool) : Outcome :=
  checkedThen
    [check_name_length namespace_name "namespace_name",
     check_name_length job_name "job_name"] <|
    let creation : Request :=
      ⟨.POST, url API_PATH "/namespaces/{0}/jobs/{1}/runs?external_id={2}"
        [namespace_name, job_name, run_id],
       some (jobRunPayload nominal_start_time nominal_end_time run_args)⟩
    if mark_as_running then
      let started := mark_job_run_as run_id "start"
      ⟨creation :: started.dispatched, started.error⟩
    else ⟨[creation], none⟩

end MarquezClientWO

/-! ### All create operations, packaged

`CreateCall` enumerates every create operation of either personality
with its full argument tuple, so that properties quantifying over "every
create operation and every input" can be stated as one quantification. -/

/-- One invocation of a create operation of either client personality. -/
inductive CreateCall where
  | syncNamespace (c : MarquezClient) (namespace_name owner_name : String)
      (description : Option String)
  | syncSource (c : MarquezClient) (source_name : String)
      (source_type : SourceType) (connection_url : String)
      (description : Option String)
  | syncDataset (c : MarquezClient) (namespace_name dataset_name : String)
      (dataset_type : DatasetType) (physical_name source_name : String)
      (description run_id schema_location : Option String)
      (fields : Option (List FieldDict)) (tags : Option (List String))
  | syncJob (c : MarquezClient) (namespace_name job_name : String)
      (job_type : JobType) (location : Option String)
      (input_dataset output_dataset : Option (List DatasetRef))
      (description : Option String)
      (context : Option (List (String × String)))
  | syncJobRun (c : MarquezClient) (namespace_name job_name : String)
      (nominal_start_time nominal_end_time : Option String)
      (run_args : Option (List (String × String))) (mark_as_running : Bool)
      (response_run_id : String)
  | woNamespace (namespace_name owner_name : String)
      (description : Option String)
  | woSource (source_name : String) (source_type : SourceType)
      (connection_url : String) (description : Option String)
  | woDataset (namespace_name dataset_name : String)
      (dataset_type : DatasetType) (physical_name source_name run_id : String)
      (description schema_location : Option String)
      (fields : Option (List FieldDict)) (tags : Option (List String))
  | woJob (namespace_name job_name : String) (job_type : JobType)
      (location : Option String)
      (input_dataset output_dataset : Option (List DatasetRef))
      (description : Option String)
      (context : Option (List (String × String)))
  | woJobRun (namespace_name job_name run_id : String)
      (nominal_start_time nominal_end_time : Option String)
      (run_args : Option (List (String × String))) (mark_as_running : Bool)

/-- Run a create call through the corresponding client operation. -/
def runCreate : CreateCall → Outcome
  | .syncNamespace c ns owner desc => c.create_namespace ns owner desc
  | .syncSource c src st curl desc => c.create_source src st curl desc
  | .syncDataset c ns ds dt phys src desc rid sl fields tags =>
    c.create_dataset ns ds dt phys src desc rid sl fields tags
  | .syncJob c ns job jt loc ins outs desc ctx =>
    c.create_job ns job jt loc ins outs desc ctx
  | .syncJobRun c ns job nst net ra mark resp =>
    c.create_job_run ns job nst net ra mark resp
  | .woNamespace ns owner desc =>
    MarquezClientWO.create_namespace ns owner desc
  | .woSource src st curl desc =>
    MarquezClientWO.create_source src st curl desc
  | .woDataset ns ds dt phys src rid desc sl fields tags =>
    MarquezClientWO.create_dataset ns ds dt phys src rid desc sl fields tags
  | .woJob ns job jt loc ins outs desc ctx =>
    MarquezClientWO.create_job ns job jt loc ins outs desc ctx
  | .woJobRun ns job rid nst net ra mark =>
    MarquezClientWO.create_job_run ns job rid nst net ra mark

/-- Some length-validated name of the call exceeds the limit applicable
to its personality and name kind (spec §4.1's limit tables). -/
def someNameTooLong : CreateCall → Prop
  | .syncNamespace _ ns _ _ => ns.length > NAMESPACE_LENGTH_LIMIT
  | .syncSource _ src _ _ _ => src.length > SOURCE_LENGTH_LIMIT
  | .syncDataset _ ns ds _ _ src _ _ _ _ _ =>
    ns.length > NAMESPACE_LENGTH_LIMIT ∨ ds.length > DATASET_LENGTH_LIMIT ∨
      src.length > SOURCE_LENGTH_LIMIT
  | .syncJob _ ns job _ _ _ _ _ _ =>
    ns.length > NAMESPACE_LENGTH_LIMIT ∨ job.length > JOB_LENGTH_LIMIT
  | .syncJobRun _ ns job _ _ _ _ _ =>
    ns.length > NAMESPACE_LENGTH_LIMIT ∨ job.length > JOB_LENGTH_LIMIT
  | .woNamespace ns owner _ => ns.length > 64 ∨ owner.length > 64
  | .woSource src _ _ _ => src.length > 64
  | .woDataset ns ds _ phys src _ _ _ _ _ =>
    ns.length > 64 ∨ ds.length > 255 ∨ phys.length > 255 ∨ src.length > 64
  | .woJob ns job _ _ _ _ _ _ => ns.length > 64 ∨ job.length > 255
  | .woJobRun ns job _ _ _ _ _ => ns.length > 64 ∨ job.length > 255

/-- All of the call's validations that are not length comparisons
(presence and cross-field checks) succeed. -/
def priorChecksOk : CreateCall → Prop
  | .syncNamespace _ _ _ _ => True
  | .syncSource _ _ _ _ _ => True
  | .syncDataset _ ns ds dt phys src _ _ sl _ _ =>
    ns ≠ "" ∧ ds ≠ "" ∧ streamCheck dt sl = none ∧ phys ≠ "" ∧ src ≠ ""
  | .syncJob _ ns job _ _ _ _ _ _ => ns ≠ "" ∧ job ≠ ""
  | .syncJobRun _ ns job _ _ _ _ _ => ns ≠ "" ∧ job ≠ ""
  | .woNamespace ns owner _ => ns ≠ "" ∧ owner ≠ ""
  | .woSource _ _ _ _ => True
  | .woDataset ns ds dt phys src rid _ sl _ _ =>
    ns ≠ "" ∧ ds ≠ "" ∧ MarquezClientWO.streamCheckWO dt sl = none ∧
      rid ≠ "" ∧ phys ≠ "" ∧ src ≠ ""
  | .woJob ns job _ _ _ _ _ _ => ns ≠ "" ∧ job ≠ ""
  | .woJobRun ns job _ _ _ _ _ => ns ≠ "" ∧ job ≠ ""

/-- A concrete string of `n` letters, for exercising length limits. -/
def longA (n : Nat) : String :=
  String.mk (List.replicate n 'a')

/-- The optional-field contract for a string-valued field slot of a
payload builder: a blank (`None`/empty) value leaves the wire key
entirely absent from the shaped mapping, a non-empty value appears
verbatim under it. -/
def optStrFieldOk (p : Option String → Payload) (k : String) : Prop :=
  (∀ v, pyBlankStr v = true → (p v).lookup k = none) ∧
  (∀ d, d ≠ "" → (p (some d)).lookup k = some (JValue.str d))

/-- The optional-field contract for a list- or mapping-valued field slot
of a payload builder. -/
def optListFieldOk {α : Type} (p : Option (List α) → Payload) (k : String)
    (inj : List α → JValue) : Prop :=
  (∀ v, pyBlankList v = true → (p v).lookup k = none) ∧
  (∀ l, ¬l.isEmpty → (p (some l)).lookup k = some (inj l))

/-! ### Claim C1 -/

/-- **C1** (corrected).  For every create operation of either
personality and every input in which some supplied name exceeds the
length limit applicable to that personality and name kind, the operation
raises a validation `ValueError` and performs zero transport dispatches;
the raised error is `FieldTooLong` whenever every validation that is not
a length comparison passes (`priorChecksOk`).  The original claim's
stronger assertion — that the error is always `FieldTooLong` — fails
when an earlier-ordered presence check fires first (see the
counterexample). -/
theorem C1_overlong_name_rejected_before_dispatch (call : CreateCall)
    (hover : someNameTooLong call) :
    (runCreate call).dispatched = [] ∧ (runCreate call).error.isSome ∧
      (priorChecksOk call →
        ∃ f n l, (runCreate call).error = some (VError.fieldTooLong f n l)) := by
  cases call with
  | syncNamespace c ns owner desc =>
    simp only [someNameTooLong, NAMESPACE_LENGTH_LIMIT] at hover
    have hns0 : ¬ ns = "" := by intro he; subst he; simp at hover
    simp [runCreate, MarquezClient.create_namespace, checked, checkedThen,
      firstErr, checkNotNone, checkMaxLen, NAMESPACE_LENGTH_LIMIT, hns0,
      hover, priorChecksOk]
  | syncSource c src st curl desc =>
    simp only [someNameTooLong, SOURCE_LENGTH_LIMIT] at hover
    have hsr0 : ¬ src = "" := by intro he; subst he; simp at hover
    simp [runCreate, MarquezClient.create_source, checked, checkedThen,
      firstErr, checkNotNone, checkMaxLen, SOURCE_LENGTH_LIMIT, hsr0,
      hover, priorChecksOk]
  | syncDataset c ns ds dt phys src desc rid sl fields tags =>
    simp only [someNameTooLong, NAMESPACE_LENGTH_LIMIT, DATASET_LENGTH_LIMIT,
      SOURCE_LENGTH_LIMIT] at hover
    simp only [runCreate, MarquezClient.create_dataset, checked,
      priorChecksOk]
    by_cases hns0 : ns = ""
    · subst hns0
      simp [checkedThen, firstErr, checkNotNone]
    · by_cases hnsl : ns.length > 1024
      · simp [checkedThen, firstErr, checkNotNone, checkMaxLen,
          NAMESPACE_LENGTH_LIMIT, hns0, hnsl]
      · by_cases hds0 : ds = ""
        · subst hds0
          simp [checkedThen, firstErr, checkNotNone, checkMaxLen,
            NAMESPACE_LENGTH_LIMIT, hns0, hnsl]
        · by_cases hdsl : ds.length > 1024
          · simp [checkedThen, firstErr, checkNotNone, checkMaxLen,
              NAMESPACE_LENGTH_LIMIT, DATASET_LENGTH_LIMIT, hns0, hnsl,
              hds0, hdsl]
          · cases hst : streamCheck dt sl with
            | some e =>
              simp [checkedThen, firstErr, checkNotNone, checkMaxLen,
                NAMESPACE_LENGTH_LIMIT, DATASET_LENGTH_LIMIT, hns0, hnsl,
                hds0, hdsl, hst]
            | none =>
              by_cases hph0 : phys = ""
              · subst hph0
                simp [checkedThen, firstErr, checkNotNone, checkMaxLen,
                  NAMESPACE_LENGTH_LIMIT, DATASET_LENGTH_LIMIT, hns0, hnsl,
                  hds0, hdsl, hst]
              · by_cases hsr0 : src = ""
                · subst hsr0
                  simp at hover
                  simp [checkedThen, firstErr, checkNotNone, checkMaxLen,
                    NAMESPACE_LENGTH_LIMIT, DATASET_LENGTH_LIMIT,
                    SOURCE_LENGTH_LIMIT, hns0, hnsl, hds0, hdsl, hst, hph0,
                    hover]
                · have hsrl : src.length > 1024 := by
                    rcases hover with h | h | h
                    · exact absurd h hnsl
                    · exact absurd h hdsl
                    · exact h
                  simp [checkedThen, firstErr, checkNotNone, checkMaxLen,
                    NAMESPACE_LENGTH_LIMIT, DATASET_LENGTH_LIMIT,
                    SOURCE_LENGTH_LIMIT, hns0, hnsl, hds0, hdsl, hst, hph0,
                    hsr0, hsrl]
  | syncJob c ns job jt loc ins outs desc ctx =>
    simp only [someNameTooLong, NAMESPACE_LENGTH_LIMIT,
      JOB_LENGTH_LIMIT] at hover
    simp only [runCreate, MarquezClient.create_job, checked, priorChecksOk]
    by_cases hns0 : ns = ""
    · subst hns0
      simp [checkedThen, firstErr, checkNotNone]
    · by_cases hnsl : ns.length > 1024
      · simp [checkedThen, firstErr, checkNotNone, checkMaxLen,
          NAMESPACE_LENGTH_LIMIT, hns0, hnsl]
      · by_cases hjob0 : job = ""
        · subst hjob0
          simp [checkedThen, firstErr, checkNotNone, checkMaxLen,
            NAMESPACE_LENGTH_LIMIT, hns0, hnsl]
        · have hjl : job.length > 1024 := by
            rcases hover with h | h
            · exact absurd h hnsl
            · exact h
          simp [checkedThen, firstErr, checkNotNone, checkMaxLen,
            NAMESPACE_LENGTH_LIMIT, JOB_LENGTH_LIMIT, hns0, hnsl, hjob0,
            hjl]
  | syncJobRun c ns job nst net ra mark resp =>
    simp only [someNameTooLong, NAMESPACE_LENGTH_LIMIT,
      JOB_LENGTH_LIMIT] at hover
    simp only [runCreate, MarquezClient.create_job_run, priorChecksOk]
    by_cases hns0 : ns = ""
    · subst hns0
      simp [checkedThen, firstErr, checkNotNone]
    · by_cases hnsl : ns.length > 1024
      · simp [checkedThen, firstErr, checkNotNone, checkMaxLen,
          NAMESPACE_LENGTH_LIMIT, hns0, hnsl]
      · by_cases hjob0 : job = ""
        · subst hjob0
          simp [checkedThen, firstErr, checkNotNone, checkMaxLen,
            NAMESPACE_LENGTH_LIMIT, hns0, hnsl]
        · have hjl : job.length > 1024 := by
            rcases hover with h | h
            · exact absurd h hnsl
            · exact h
          simp [checkedThen, firstErr, checkNotNone, checkMaxLen,
            NAMESPACE_LENGTH_LIMIT, JOB_LENGTH_LIMIT, hns0, hnsl, hjob0,
            hjl]
  | woNamespace ns owner desc =>
    simp only [someNameTooLong] at hover
    simp only [runCreate, MarquezClientWO.create_namespace, checked,
      priorChecksOk]
    by_cases hns0 : ns = ""
    · subst hns0
      simp [checkedThen, firstErr, MarquezClientWO.check_name_length,
        MarquezClientWO.is_none]
    · by_cases hnsl : ns.length > 64
      · simp [checkedThen, firstErr, MarquezClientWO.check_name_length,
          MarquezClientWO.is_none, hns0, hnsl]
      · by_cases how0 : owner = ""
        · subst how0
          simp [checkedThen, firstErr, MarquezClientWO.check_name_length,
            MarquezClientWO.is_none, hns0, hnsl]
        · have howl : owner.length > 64 := by
            rcases hover with h | h
            · exact absurd h hnsl
            · exact h
          simp [checkedThen, firstErr, MarquezClientWO.check_name_length,
            MarquezClientWO.is_none, hns0, hnsl, how0, howl]
  | woSource src st curl desc =>
    simp only [someNameTooLong] at hover
    have hsr0 : ¬ src = "" := by intro he; subst he; simp at hover
    simp [runCreate, MarquezClientWO.create_source, checked, checkedThen,
      firstErr, MarquezClientWO.check_name_length, MarquezClientWO.is_none,
      hsr0, hover, priorChecksOk]
  | woDataset ns ds dt phys src rid desc sl fields tags =>
    simp only [someNameTooLong] at hover
    simp only [runCreate, MarquezClientWO.create_dataset, checked,
      priorChecksOk]
    by_cases hns0 : ns = ""
    · subst hns0
      simp [checkedThen, firstErr, MarquezClientWO.check_name_length,
        MarquezClientWO.is_none]
    · by_cases hnsl : ns.length > 64
      · simp [checkedThen, firstErr, MarquezClientWO.check_name_length,
          MarquezClientWO.is_none, hns0, hnsl]
      · by_cases hds0 : ds = ""
        · subst hds0
          simp [checkedThen, firstErr, MarquezClientWO.check_name_length,
            MarquezClientWO.is_none, hns0, hnsl]
        · by_cases hdsl : ds.length > 255
          · simp [checkedThen, firstErr, MarquezClientWO.check_name_length,
              MarquezClientWO.is_none, hns0, hnsl, hds0, hdsl]
          · cases hst : MarquezClientWO.streamCheckWO dt sl with
            | some e =>
              simp [checkedThen, firstErr,
                MarquezClientWO.check_name_length, MarquezClientWO.is_none,
                hns0, hnsl, hds0, hdsl, hst]
            | none =>
              by_cases hrid0 : rid = ""
              · subst hrid0
                simp [checkedThen, firstErr,
                  MarquezClientWO.check_name_length,
                  MarquezClientWO.is_none, hns0, hnsl, hds0, hdsl, hst]
              · by_cases hph0 : phys = ""
                · subst hph0
                  simp [checkedThen, firstErr,
                    MarquezClientWO.check_name_length,
                    MarquezClientWO.is_none, hns0, hnsl, hds0, hdsl, hst,
                    hrid0]
                · by_cases hphl : phys.length > 255
                  · simp [checkedThen, firstErr,
                      MarquezClientWO.check_name_length,
                      MarquezClientWO.is_none, hns0, hnsl, hds0, hdsl, hst,
                      hrid0, hph0, hphl]
                  · by_cases hsr0 : src = ""
                    · subst hsr0
                      simp at hover
                      simp [checkedThen, firstErr,
                        MarquezClientWO.check_name_length,
                        MarquezClientWO.is_none, hns0, hnsl, hds0, hdsl,
                        hst, hrid0, hph0, hphl, hover]
                    · have hsrl : src.length > 64 := by
                        rcases hover with h | h | h | h
                        · exact absurd h hnsl
                        · exact absurd h hdsl
                        · exact absurd h hphl
                        · exact h
                      simp [checkedThen, firstErr,
                        MarquezClientWO.check_name_length,
                        MarquezClientWO.is_none, hns0, hnsl, hds0, hdsl,
                        hst, hrid0, hph0, hphl, hsr0, hsrl]
  | woJob ns job jt loc ins outs desc ctx =>
    simp only [someNameTooLong] at hover
    simp only [runCreate, MarquezClientWO.create_job, checked,
      priorChecksOk]
    by_cases hns0 : ns = ""
    · subst hns0
      simp [checkedThen, firstErr, MarquezClientWO.check_name_length,
        MarquezClientWO.is_none]
    · by_cases hnsl : ns.length > 64
      · simp [checkedThen, firstErr, MarquezClientWO.check_name_length,
          MarquezClientWO.is_none, hns0, hnsl]
      · by_cases hjob0 : job = ""
        · subst hjob0
          simp [checkedThen, firstErr, MarquezClientWO.check_name_length,
            MarquezClientWO.is_none, hns0, hnsl]
        · have hjl : job.length > 255 := by
            rcases hover with h | h
            · exact absurd h hnsl
            · exact h
          simp [checkedThen, firstErr, MarquezClientWO.check_name_length,
            MarquezClientWO.is_none, hns0, hnsl, hjob0, hjl]
  | woJobRun ns job rid nst net ra mark =>
    simp only [someNameTooLong] at hover
    simp only [runCreate, MarquezClientWO.create_job_run, priorChecksOk]
    by_cases hns0 : ns = ""
    · subst hns0
      simp [checkedThen, firstErr, MarquezClientWO.check_name_length,
        MarquezClientWO.is_none]
    · by_cases hnsl : ns.length > 64
      · simp [checkedThen, firstErr, MarquezClientWO.check_name_length,
          MarquezClientWO.is_none, hns0, hnsl]
      · by_cases hjob0 : job = ""
        · subst hjob0
          simp [checkedThen, firstErr, MarquezClientWO.check_name_length,
            MarquezClientWO.is_none, hns0, hnsl]
        · have hjl : job.length > 255 := by
            rcases hover with h | h
            · exact absurd h hnsl
            · exact h
          simp [checkedThen, firstErr, MarquezClientWO.check_name_length,
            MarquezClientWO.is_none, hns0, hnsl, hjob0, hjl]

/-- Witness for C1: the write-only `create_namespace` with a 65-character
owner name (and a valid namespace name) raises `FieldTooLong` and
dispatches nothing. -/
theorem C1_overlong_name_rejected_before_dispatch_witness :
    (runCreate (CreateCall.woNamespace "ns" (longA 65) none)).dispatched = []
      ∧ ∃ f n l,
        (runCreate (CreateCall.woNamespace "ns" (longA 65) none)).error =
          some (VError.fieldTooLong f n l) :=
  ⟨(C1_overlong_name_rejected_before_dispatch _
      (by simp only [someNameTooLong]; decide)).1,
   (C1_overlong_name_rejected_before_dispatch _
      (by simp only [someNameTooLong]; decide)).2.2
     (by simp only [priorChecksOk]; decide)⟩

/-- Counterexample to C1 as stated: the write-only `create_namespace`
with an empty namespace name and a 65-character owner name is an input
in which a supplied name exceeds its limit, yet the raised error is the
`MissingField` `ValueError` for `namespace_name`, not `FieldTooLong`
(zero dispatches still hold). -/
theorem C1_counterexample :
    someNameTooLong (CreateCall.woNamespace "" (longA 65) none) ∧
      (∀ f n l,
        (runCreate (CreateCall.woNamespace "" (longA 65) none)).error ≠
          some (VError.fieldTooLong f n l)) ∧
      runCreate (CreateCall.woNamespace "" (longA 65) none) =
        ⟨[], some (VError.missingField "namespace_name")⟩ := by
  refine ⟨by simp only [someNameTooLong]; decide, ?_, by decide⟩
  intro f n l h
  rw [show (runCreate (CreateCall.woNamespace "" (longA 65) none)).error =
    some (VError.missingField "namespace_name") from by decide] at h
  simp at h

/-! ### Claim C2 -/

/-- **C2** (corrected).  The query-capable client's four limit constants
are all 1024 and its inline length comparison passes exactly the strings
within the limit (raising `FieldTooLong` beyond it); the write-only
`_check_name_length` enforces 64 characters for
`namespace_name`/`owner_name`/`source_name` and 255 for
`dataset_name`/`field_name`/`job_name`/`tag_name`/`physical_name`:
every *non-empty* string within the bound passes, every string exceeding
the bound raises `FieldTooLong`.  The original claim's "every string
within the bound passes" fails on the empty string, on which the
write-only check raises `MissingField` (see the counterexample). -/
theorem C2_length_limit_tables :
    (NAMESPACE_LENGTH_LIMIT = 1024 ∧ SOURCE_LENGTH_LIMIT = 1024 ∧
      DATASET_LENGTH_LIMIT = 1024 ∧ JOB_LENGTH_LIMIT = 1024) ∧
    (∀ (v name : String) (limit : Nat),
      (checkMaxLen v name limit = none ↔ v.length ≤ limit) ∧
      (v.length > limit →
        checkMaxLen v name limit =
          some (VError.fieldTooLong name v.length limit))) ∧
    (∀ v name : String,
      (name = "namespace_name" ∨ name = "owner_name" ∨
        name = "source_name") →
      (v ≠ "" →
        (MarquezClientWO.check_name_length v name = none ↔
          v.length ≤ 64)) ∧
      (v.length > 64 →
        MarquezClientWO.check_name_length v name =
          some (VError.fieldTooLong name v.length 64))) ∧
    (∀ v name : String,
      (name = "dataset_name" ∨ name = "field_name" ∨ name = "job_name" ∨
        name = "tag_name" ∨ name = "physical_name") →
      (v ≠ "" →
        (MarquezClientWO.check_name_length v name = none ↔
          v.length ≤ 255)) ∧
      (v.length > 255 →
        MarquezClientWO.check_name_length v name =
          some (VError.fieldTooLong name v.length 255))) := by
  refine ⟨⟨rfl, rfl, rfl, rfl⟩, ?_, ?_, ?_⟩
  · intro v name limit
    constructor
    · by_cases h : v.length > limit <;> simp [checkMaxLen, h] <;> omega
    · intro h; simp [checkMaxLen, h]
  · intro v name hname
    constructor
    · intro hv
      rcases hname with h | h | h <;> subst h <;>
        (by_cases hl : v.length > 64 <;>
          simp [MarquezClientWO.check_name_length, MarquezClientWO.is_none,
            hv, hl] <;> omega)
    · intro hl
      have hv : v ≠ "" := by intro he; subst he; simp at hl
      rcases hname with h | h | h <;> subst h <;>
        simp [MarquezClientWO.check_name_length, MarquezClientWO.is_none,
          hv, hl]
  · intro v name hname
    constructor
    · intro hv
      rcases hname with h | h | h | h | h <;> subst h <;>
        (by_cases hl : v.length > 255 <;>
          simp [MarquezClientWO.check_name_length, MarquezClientWO.is_none,
            hv, hl] <;> omega)
    · intro hl
      have hv : v ≠ "" := by intro he; subst he; simp at hl
      rcases hname with h | h | h | h | h <;> subst h <;>
        simp [MarquezClientWO.check_name_length, MarquezClientWO.is_none,
          hv, hl]

/-- Witness for C2: a 3-character name passes the 1024 comparison; a
65-character owner name fails the write-only 64 bound with
`FieldTooLong`; a 100-character job name is within the write-only 255
bound and passes. -/
theorem C2_length_limit_tables_witness :
    checkMaxLen "abc" "namespace_name" 1024 = none ∧
      MarquezClientWO.check_name_length (longA 65) "owner_name" =
        some (VError.fieldTooLong "owner_name" (longA 65).length 64) ∧
      MarquezClientWO.check_name_length (longA 100) "job_name" = none :=
  ⟨(C2_length_limit_tables.2.1 "abc" "namespace_name" 1024).1.mpr
      (by decide),
   (C2_length_limit_tables.2.2.1 (longA 65) "owner_name"
      (Or.inr (Or.inl rfl))).2 (by decide),
   ((C2_length_limit_tables.2.2.2 (longA 100) "job_name"
      (by decide)).1 (by decide)).mpr (by decide)⟩

/-- Counterexample to C2 as stated: the empty string is within the
64-character bound for `namespace_name`, yet the write-only length check
does not pass — it raises the `MissingField` `ValueError`. -/
theorem C2_counterexample :
    ("" : String).length ≤ 64 ∧
      MarquezClientWO.check_name_length "" "namespace_name" ≠ none ∧
      MarquezClientWO.check_name_length "" "namespace_name" =
        some (VError.missingField "namespace_name") := by
  decide

/-! ### Path-builder lemmas (for claim C3) -/

set_option maxRecDepth 4000 in
theorem safeByte_decode :
    ∀ b : Nat, b < 256 → isSafeByte b = true →
      Char.ofNat b ≠ '%' ∧ (Char.ofNat b).toNat = b := by decide

set_option maxRecDepth 4000 in
theorem unsafeByte_decode :
    ∀ b : Nat, b < 256 → isSafeByte b = false →
      (isHexDig (hexDigitUpper (b / 16)) = true ∧
        isHexDig (hexDigitUpper (b % 16)) = true) ∧
      hexVal (hexDigitUpper (b / 16)) * 16 + hexVal (hexDigitUpper (b % 16))
        = b := by decide

/-- Decoding inverts the percent-encoding of a single byte, whatever
follows it. -/
theorem unquote_quoteByte (b : Nat) (hb : b < 256) (rest : List Char) :
    unquoteBytes (quoteByte b ++ rest) =
      (unquoteBytes rest).map (fun l => b :: l) := by
  by_cases hs : isSafeByte b
  · obtain ⟨h1, h2⟩ := safeByte_decode b hb hs
    rw [quoteByte, if_pos hs, List.singleton_append, unquoteBytes.eq_def]
    simp [h1, h2]
  · obtain ⟨⟨h1, h2⟩, h3⟩ := unsafeByte_decode b hb (by simpa using hs)
    simp [quoteByte, hs, unquoteBytes, h1, h2, h3]

/-- Percent-encoding a byte sequence is inverted exactly by one round of
decoding: each byte is encoded exactly once. -/
theorem unquote_flatMap_quoteByte (bs : List Nat) (h : ∀ b ∈ bs, b < 256) :
    unquoteBytes (bs.flatMap quoteByte) = some bs := by
  induction bs with
  | nil => rfl
  | cons b bs ih =>
    rw [List.flatMap_cons, unquote_quoteByte b (h b (by simp)),
      ih (fun x hx => h x (by simp [hx]))]
    rfl

/-- Every Unicode scalar value is below `0x110000`. -/
theorem char_toNat_lt (c : Char) : c.toNat < 0x110000 := by
  rcases c.valid with h | ⟨_, h2⟩
  · have h' : c.val.toNat < (0xd800 : UInt32).toNat :=
      BitVec.lt_def.mp (UInt32.lt_def.mp h)
    have he : (0xd800 : UInt32).toNat = 0xd800 := rfl
    simp only [Char.toNat]
    omega
  · have h' : c.val.toNat < (0x110000 : UInt32).toNat :=
      BitVec.lt_def.mp (UInt32.lt_def.mp h2)
    have he : (0x110000 : UInt32).toNat = 0x110000 := rfl
    simp only [Char.toNat]
    omega

/-- The UTF-8 encoder produces bytes. -/
theorem utf8Bytes_lt (c : Char) : ∀ b ∈ utf8Bytes c, b < 256 := by
  intro b hb
  have hc := char_toNat_lt c
  simp only [utf8Bytes] at hb
  split_ifs at hb with h1 h2 h3
  · simp at hb; omega
  · simp at hb; rcases hb with rfl | rfl <;> omega
  · simp at hb; rcases hb with rfl | rfl | rfl <;> omega
  · simp at hb; rcases hb with rfl | rfl | rfl | rfl <;> omega

/-! ### Claim C3 -/

/-- **C3** (confirmed).  The path builder `_url` percent-encodes each
positional argument exactly once with the empty safe set and substitutes
the encoded arguments into the template's ordered placeholders:
(1) building `/namespaces/{0}` with `a/b c` yields a path ending in
`/namespaces/a%2Fb%20c` for every API base; (2) `quote` on that argument
gives `a%2Fb%20c`; (3) `_url` is exactly template substitution of the
quoted arguments appended to the base; (4)–(5) one round of
percent-decoding recovers the argument's UTF-8 bytes exactly
(exactly-once encoding, no double-encoding); (6) a byte survives
unescaped precisely when it is unreserved (ASCII letter, digit, or
`-._~`); (7)–(8) `/` and the space are escaped to `%2F`/`%20`;
(9) multiple arguments substitute in placeholder order. -/
theorem C3_path_builder_percent_encodes_once :
    (∀ api_base : String,
      url api_base "/namespaces/{0}" ["a/b c"] =
        api_base ++ "/namespaces/a%2Fb%20c") ∧
    quote "a/b c" = "a%2Fb%20c" ∧
    (∀ (base template : String) (args : List String),
      url base template args = base ++ pyFormat template (args.map quote)) ∧
    (∀ s : String,
      unquoteBytes (quote s).data = some (s.data.flatMap utf8Bytes)) ∧
    (∀ bs : List Nat, (∀ b ∈ bs, b < 256) →
      unquoteBytes (bs.flatMap quoteByte) = some bs) ∧
    (∀ b : Nat, b < 128 →
      (quoteByte b = [Char.ofNat b] ↔ isSafeByte b = true)) ∧
    quoteByte 47 = ['%', '2', 'F'] ∧
    quoteByte 32 = ['%', '2', '0'] ∧
    (∀ api_base : String,
      url api_base "/namespaces/{0}/datasets/{1}" ["a", "b"] =
        api_base ++ "/namespaces/a/datasets/b") := by
  refine ⟨?_, by decide, fun _ _ _ => rfl, ?_, unquote_flatMap_quoteByte,
    ?_, by decide, by decide, ?_⟩
  · intro api_base
    rw [url]
    congr 1
  · intro s
    have : (quote s).data = (s.data.flatMap utf8Bytes).flatMap quoteByte :=
      rfl
    rw [this]
    refine unquote_flatMap_quoteByte _ ?_
    intro b hb
    obtain ⟨c, _, hbc⟩ := List.mem_flatMap.mp hb
    exact utf8Bytes_lt c b hbc
  · set_option maxRecDepth 4000 in decide
  · intro api_base
    rw [url]
    congr 1

/-- Witness for C3: the encoding example at a concrete API base, and the
decode round trip at the concrete bytes of `/` and the space. -/
theorem C3_path_builder_percent_encodes_once_witness :
    url "http://localhost:5000/api/v1" "/namespaces/{0}" ["a/b c"] =
      "http://localhost:5000/api/v1/namespaces/a%2Fb%20c" ∧
    unquoteBytes ([47, 32].flatMap quoteByte) = some [47, 32] := by
  constructor
  · rw [C3_path_builder_percent_encodes_once.1 "http://localhost:5000/api/v1"]
    decide
  · exact C3_path_builder_percent_encodes_once.2.2.2.2.1 [47, 32] (by decide)

/-! ### A shared lemma about error-free check runs -/

/-- If a checked computation reports no error, all its checks passed and
it reduces to its continuation. -/
theorem checkedThen_eq_of_error_none (cs : List (Option VError)) (k : Outcome)
    (h : (checkedThen cs k).error = none) : checkedThen cs k = k := by
  unfold checkedThen at h ⊢
  cases hf : firstErr cs with
  | none => rfl
  | some e => rw [hf] at h; simp at h

/-! ### Claim C4 -/

/-- **C4** (corrected).  The write-only `create_job_run` does *not*
validate `run_id` before dispatch: with valid names and a non-empty
`run_id` that CPython's `uuid.UUID` rejects, (1) a call with
`mark_as_running = False` completes without error and the creation
request *is* recorded; (2) with `mark_as_running = True` the
`InvalidUuid` `ValueError` is raised, but only by the `start` lifecycle
transition, after the creation request has already been recorded;
(3) the UUID check lives in `__mark_job_run_as`, which raises
`InvalidUuid` and records nothing. -/
theorem C4_run_id_not_validated_before_dispatch
    (ns job rid : String) (nst net : Option String)
    (ra : Option (List (String × String)))
    (hns : MarquezClientWO.check_name_length ns "namespace_name" = none)
    (hjob : MarquezClientWO.check_name_length job "job_name" = none)
    (hrid0 : rid ≠ "") (huuid : pyUuidOk rid = false) :
    MarquezClientWO.create_job_run ns job rid nst net ra false =
      ⟨[⟨.POST, url MarquezClientWO.API_PATH
          "/namespaces/{0}/jobs/{1}/runs?external_id={2}" [ns, job, rid],
        some (jobRunPayload nst net ra)⟩], none⟩ ∧
    MarquezClientWO.create_job_run ns job rid nst net ra true =
      ⟨[⟨.POST, url MarquezClientWO.API_PATH
          "/namespaces/{0}/jobs/{1}/runs?external_id={2}" [ns, job, rid],
        some (jobRunPayload nst net ra)⟩],
       some (VError.invalidUuid "run_id")⟩ ∧
    MarquezClientWO.mark_job_run_as rid "start" =
      ⟨[], some (VError.invalidUuid "run_id")⟩ := by
  refine ⟨?_, ?_, ?_⟩ <;>
    simp [MarquezClientWO.create_job_run, MarquezClientWO.mark_job_run_as,
      checked, checkedThen, firstErr, MarquezClientWO.is_valid_uuid,
      MarquezClientWO.is_none, hns, hjob, hrid0, huuid]

/-- Witness for C4's amended statement at the concrete non-UUID run id
`not-a-uuid`. -/
theorem C4_run_id_not_validated_before_dispatch_witness :
    MarquezClientWO.create_job_run "n" "j" "not-a-uuid" none none none
        false =
      ⟨[⟨.POST, url MarquezClientWO.API_PATH
          "/namespaces/{0}/jobs/{1}/runs?external_id={2}"
          ["n", "j", "not-a-uuid"],
        some (jobRunPayload none none none)⟩], none⟩ ∧
    MarquezClientWO.mark_job_run_as "not-a-uuid" "start" =
      ⟨[], some (VError.invalidUuid "run_id")⟩ :=
  ⟨(C4_run_id_not_validated_before_dispatch "n" "j" "not-a-uuid" none none
      none (by decide) (by decide) (by decide) (by decide)).1,
   (C4_run_id_not_validated_before_dispatch "n" "j" "not-a-uuid" none none
      none (by decide) (by decide) (by decide) (by decide)).2.2⟩

/-- Counterexample to C4 as stated: calling the write-only
`create_job_run` with the non-UUID run id `not-a-uuid` (and
`mark_as_running` left `False`) raises nothing and records the creation
request through the sink — no `InvalidUuid` failure before dispatch. -/
theorem C4_counterexample :
    pyUuidOk "not-a-uuid" = false ∧
      MarquezClientWO.create_job_run "n" "j" "not-a-uuid" none none none
          false =
        ⟨[⟨.POST, "/api/v1/namespaces/n/jobs/j/runs?external_id=not-a-uuid",
          some []⟩], none⟩ := by
  decide

/-! ### Claim C5 -/

/-- **C5** (confirmed).  In both personalities, `create_dataset` with
`STREAM` type and a blank (`None`/empty) `schema_location` fails before
any dispatch, whatever the remaining arguments are (`physical_name`,
`source_name`, `run_id`, `description`, `fields` and `tags` are fully
unconstrained; only the earlier-validated namespace and dataset names
must be valid for the call to reach this check).  The raised
`ValueError` names `schema_location`: the query client raises the
cross-field message `STREAM type datasets must have schema_location`
(spec §4.1's `requireConditional`/`MissingField` category) and the
write-only client raises the canonical
`schema_location must not be None`. -/
theorem C5_stream_requires_schema_location :
    (∀ (c : MarquezClient) (ns ds phys src : String)
      (desc rid sl : Option String) (fields : Option (List FieldDict))
      (tags : Option (List String)),
      ns ≠ "" → ns.length ≤ 1024 → ds ≠ "" → ds.length ≤ 1024 →
      pyBlankStr sl = true →
      c.create_dataset ns ds .STREAM phys src desc rid sl fields tags =
        ⟨[], some (VError.valueError
          "STREAM type datasets must have schema_location")⟩) ∧
    (∀ (ns ds phys src rid : String) (desc sl : Option String)
      (fields : Option (List FieldDict)) (tags : Option (List String)),
      MarquezClientWO.check_name_length ns "namespace_name" = none →
      MarquezClientWO.check_name_length ds "dataset_name" = none →
      pyBlankStr sl = true →
      MarquezClientWO.create_dataset ns ds .STREAM phys src rid desc sl
          fields tags =
        ⟨[], some (VError.missingField "schema_location")⟩) := by
  constructor
  · intro c ns ds phys src desc rid sl fields tags hns hnsl hds hdsl hsl
    have h1 : ¬ns.length > 1024 := by omega
    have h2 : ¬ds.length > 1024 := by omega
    simp [MarquezClient.create_dataset, checked, checkedThen, firstErr,
      checkNotNone, checkMaxLen, streamCheck, NAMESPACE_LENGTH_LIMIT,
      DATASET_LENGTH_LIMIT, hns, hds, h1, h2, hsl]
  · intro ns ds phys src rid desc sl fields tags hns hds hsl
    simp [MarquezClientWO.create_dataset, checked, checkedThen, firstErr,
      MarquezClientWO.streamCheckWO, hns, hds, hsl]

/-- Witness for C5: both personalities at concrete arguments, with every
other argument valid. -/
theorem C5_stream_requires_schema_location_witness :
    (MarquezClient.mk "http://localhost:5000/api/v1").create_dataset
        "ns" "ds" .STREAM "public.t" "src" none none none none none =
      ⟨[], some (VError.valueError
        "STREAM type datasets must have schema_location")⟩ ∧
    MarquezClientWO.create_dataset "ns" "ds" .STREAM "public.t" "src"
        "3f9d83dd-9e96-4c27-8a1e-0123456789ab" none none none none =
      ⟨[], some (VError.missingField "schema_location")⟩ :=
  ⟨C5_stream_requires_schema_location.1 ⟨"http://localhost:5000/api/v1"⟩
      "ns" "ds" "public.t" "src" none none none none none (by decide)
      (by decide) (by decide) (by decide) (by decide),
   C5_stream_requires_schema_location.2 "ns" "ds" "public.t" "src"
      "3f9d83dd-9e96-4c27-8a1e-0123456789ab" none none none none
      (by decide) (by decide) (by decide)⟩

/-! ### Claim C6 -/

/-- **C6** (confirmed).  For both personalities, a `create_job_run` call
with `mark_as_running` that completes without error dispatches exactly
two requests in order — the run-creation `POST`, then the `start`
lifecycle `POST` carrying the same run id (the caller-supplied `run_id`
for the write-only client, the `runId` read back from the creation
response for the query client); with `mark_as_running` false, exactly
the creation request is dispatched. -/
theorem C6_mark_as_running_dispatch_counts :
    (∀ (c : MarquezClient) (ns job : String) (nst net : Option String)
      (ra : Option (List (String × String))) (resp : String),
      (c.create_job_run ns job nst net ra true resp).error = none →
      (c.create_job_run ns job nst net ra true resp).dispatched =
        [⟨.POST, url c.api_base "/namespaces/{0}/jobs/{1}/runs" [ns, job],
          some (jobRunPayload nst net ra)⟩,
         ⟨.POST, url c.api_base "/jobs/runs/{0}/{1}" [resp, "start"],
          some []⟩]) ∧
    (∀ (c : MarquezClient) (ns job : String) (nst net : Option String)
      (ra : Option (List (String × String))) (resp : String),
      (c.create_job_run ns job nst net ra false resp).error = none →
      (c.create_job_run ns job nst net ra false resp).dispatched =
        [⟨.POST, url c.api_base "/namespaces/{0}/jobs/{1}/runs" [ns, job],
          some (jobRunPayload nst net ra)⟩]) ∧
    (∀ (ns job rid : String) (nst net : Option String)
      (ra : Option (List (String × String))),
      (MarquezClientWO.create_job_run ns job rid nst net ra true).error =
        none →
      (MarquezClientWO.create_job_run ns job rid nst net ra true).dispatched
        = [⟨.POST, url MarquezClientWO.API_PATH
              "/namespaces/{0}/jobs/{1}/runs?external_id={2}" [ns, job, rid],
            some (jobRunPayload nst net ra)⟩,
           ⟨.POST, url MarquezClientWO.API_PATH "/jobs/runs/{0}/{1}"
              [rid, "start"], some []⟩]) ∧
    (∀ (ns job rid : String) (nst net : Option String)
      (ra : Option (List (String × String))),
      (MarquezClientWO.create_job_run ns job rid nst net ra false).error =
        none →
      (MarquezClientWO.create_job_run ns job rid nst net ra false).dispatched
        = [⟨.POST, url MarquezClientWO.API_PATH
              "/namespaces/{0}/jobs/{1}/runs?external_id={2}" [ns, job, rid],
            some (jobRunPayload nst net ra)⟩]) := by
  refine ⟨?_, ?_, ?_, ?_⟩
  · intro c ns job nst net ra resp h
    rw [MarquezClient.create_job_run] at h
    have e1 := checkedThen_eq_of_error_none _ _ h
    rw [e1] at h
    rw [MarquezClient.create_job_run, e1]
    simp only [if_true] at h ⊢
    cases hr : checkNotNone resp "run_id" with
    | some e =>
      simp [MarquezClient.mark_job_run_as, checked, checkedThen, firstErr,
        hr] at h
    | none =>
      simp [MarquezClient.mark_job_run_as, checked, checkedThen, firstErr,
        hr]
  · intro c ns job nst net ra resp h
    rw [MarquezClient.create_job_run] at h
    have e1 := checkedThen_eq_of_error_none _ _ h
    rw [MarquezClient.create_job_run, e1]
    simp
  · intro ns job rid nst net ra h
    rw [MarquezClientWO.create_job_run] at h
    have e1 := checkedThen_eq_of_error_none _ _ h
    rw [e1] at h
    rw [MarquezClientWO.create_job_run, e1]
    simp only [if_true] at h ⊢
    cases hr : MarquezClientWO.is_valid_uuid rid "run_id" with
    | some e =>
      simp [MarquezClientWO.mark_job_run_as, checked, checkedThen,
        firstErr, hr] at h
    | none =>
      simp [MarquezClientWO.mark_job_run_as, checked, checkedThen,
        firstErr, hr]
  · intro ns job rid nst net ra h
    rw [MarquezClientWO.create_job_run] at h
    have e1 := checkedThen_eq_of_error_none _ _ h
    rw [MarquezClientWO.create_job_run, e1]
    simp

/-- Witness for C6: concrete error-free calls of both personalities and
both `mark_as_running` values. -/
theorem C6_mark_as_running_dispatch_counts_witness :
    ((MarquezClient.mk "b").create_job_run "n" "j" none none none true
        "r1").dispatched =
      [⟨.POST, url "b" "/namespaces/{0}/jobs/{1}/runs" ["n", "j"],
        some (jobRunPayload none none none)⟩,
       ⟨.POST, url "b" "/jobs/runs/{0}/{1}" ["r1", "start"], some []⟩] ∧
    ((MarquezClient.mk "b").create_job_run "n" "j" none none none false
        "r1").dispatched =
      [⟨.POST, url "b" "/namespaces/{0}/jobs/{1}/runs" ["n", "j"],
        some (jobRunPayload none none none)⟩] ∧
    (MarquezClientWO.create_job_run "n" "j"
        "3f9d83dd-9e96-4c27-8a1e-0123456789ab" none none none
        true).dispatched =
      [⟨.POST, url MarquezClientWO.API_PATH
          "/namespaces/{0}/jobs/{1}/runs?external_id={2}"
          ["n", "j", "3f9d83dd-9e96-4c27-8a1e-0123456789ab"],
        some (jobRunPayload none none none)⟩,
       ⟨.POST, url MarquezClientWO.API_PATH "/jobs/runs/{0}/{1}"
          ["3f9d83dd-9e96-4c27-8a1e-0123456789ab", "start"], some []⟩] ∧
    (MarquezClientWO.create_job_run "n" "j"
        "3f9d83dd-9e96-4c27-8a1e-0123456789ab" none none none
        false).dispatched =
      [⟨.POST, url MarquezClientWO.API_PATH
          "/namespaces/{0}/jobs/{1}/runs?external_id={2}"
          ["n", "j", "3f9d83dd-9e96-4c27-8a1e-0123456789ab"],
        some (jobRunPayload none none none)⟩] :=
  ⟨C6_mark_as_running_dispatch_counts.1 ⟨"b"⟩ "n" "j" none none none "r1"
      (by decide),
   C6_mark_as_running_dispatch_counts.2.1 ⟨"b"⟩ "n" "j" none none none "r1"
      (by decide),
   C6_mark_as_running_dispatch_counts.2.2.1 "n" "j"
      "3f9d83dd-9e96-4c27-8a1e-0123456789ab" none none none (by decide),
   C6_mark_as_running_dispatch_counts.2.2.2 "n" "j"
      "3f9d83dd-9e96-4c27-8a1e-0123456789ab" none none none (by decide)⟩

/-! ### Payload lookup lemmas (for claim C7) -/

/-- Looking a key up in a concatenation tries the left part first. -/
theorem lookup_append (k : String) (l1 l2 : Payload) :
    (l1 ++ l2).lookup k =
      (match l1.lookup k with
       | some v => some v
       | none => l2.lookup k) := by
  induction l1 with
  | nil => rfl
  | cons p t ih =>
    obtain ⟨a, b⟩ := p
    by_cases h : k = a
    · simp [List.lookup, h]
    · have hb : (k == a) = false := beq_eq_false_iff_ne.mpr h
      simp [List.lookup, hb, ih]

/-- An optional-string fragment never carries a foreign key. -/
theorem lookup_optStrEntry_ne (k k' : String) (v : Option String)
    (h : k ≠ k') : (optStrEntry k' v).lookup k = none := by
  have hb : (k == k') = false := beq_eq_false_iff_ne.mpr h
  cases v with
  | none => rfl
  | some s =>
    by_cases hs : s = "" <;> simp [optStrEntry, hs, List.lookup, hb]

/-- An optional-list fragment never carries a foreign key. -/
theorem lookup_optListEntry_ne {α : Type} (k k' : String)
    (v : Option (List α)) (inj : List α → JValue) (h : k ≠ k') :
    (optListEntry k' v inj).lookup k = none := by
  have hb : (k == k') = false := beq_eq_false_iff_ne.mpr h
  cases v with
  | none => rfl
  | some l =>
    by_cases hs : l.isEmpty <;> simp [optListEntry, hs, List.lookup, hb]

/-- A blank optional string contributes no fragment at all. -/
theorem optStrEntry_blank (k : String) (v : Option String)
    (h : pyBlankStr v = true) : optStrEntry k v = [] := by
  cases v with
  | none => rfl
  | some s => simp [pyBlankStr] at h; simp [optStrEntry, h]

/-- A blank optional list contributes no fragment at all. -/
theorem optListEntry_blank {α : Type} (k : String) (v : Option (List α))
    (inj : List α → JValue) (h : pyBlankList v = true) :
    optListEntry k v inj = [] := by
  cases v with
  | none => rfl
  | some l => simp [pyBlankList] at h; simp [optListEntry, h]

/-- A supplied non-empty optional string appears verbatim under its key. -/
theorem lookup_optStrEntry_self (k s : String) (h : s ≠ "") :
    (optStrEntry k (some s)).lookup k = some (JValue.str s) := by
  simp [optStrEntry, h, List.lookup]

/-- A supplied non-empty optional list appears verbatim under its key. -/
theorem lookup_optListEntry_self {α : Type} (k : String) (l : List α)
    (inj : List α → JValue) (h : ¬l.isEmpty) :
    (optListEntry k (some l) inj).lookup k = some (inj l) := by
  simp [optListEntry, h, List.lookup]

/-! ### Claim C7 -/

/-- **C7** (corrected).  In every payload-shaping block of either
personality, each `if`-guarded optional field obeys the omission
contract (`optStrFieldOk`/`optListFieldOk`): a blank value leaves the
wire key absent, a supplied non-empty value appears verbatim; required
fields always appear under their canonical keys; and the end-to-end
example holds: `create_namespace('ns1', 'owner1')` produces exactly one
`PUT` to `…/namespaces/ns1` with body `{"ownerName": "owner1"}` and no
`description` key.  The original claim's "for every operation, an
omitted optional field never appears" fails for `create_job`'s optional
`input_dataset`/`output_dataset`: omitted, they still appear as
`inputs`/`outputs` with value `[]` (see the counterexample). -/
theorem C7_optional_field_omission :
    (∀ owner : String,
      optStrFieldOk (fun v => namespacePayload owner v) "description" ∧
      ∀ desc, (namespacePayload owner desc).lookup "ownerName" =
        some (JValue.str owner)) ∧
    (∀ (st : SourceType) (curl : String),
      optStrFieldOk (fun v => sourcePayload st curl v) "description" ∧
      ∀ desc, (sourcePayload st curl desc).lookup "type" =
          some (JValue.str st.value) ∧
        (sourcePayload st curl desc).lookup "connectionUrl" =
          some (JValue.str curl)) ∧
    (∀ (dt : DatasetType) (phys src : String) (desc rid sl : Option String)
      (fields : Option (List FieldDict)) (tags : Option (List String)),
      optStrFieldOk
        (fun v => datasetPayload dt phys src v rid fields tags sl)
        "description" ∧
      optStrFieldOk
        (fun v => datasetPayload dt phys src desc v fields tags sl)
        "runId" ∧
      optListFieldOk
        (fun v => datasetPayload dt phys src desc rid v tags sl)
        "fields" JValue.fieldList ∧
      optListFieldOk
        (fun v => datasetPayload dt phys src desc rid fields v sl)
        "tags" JValue.strList ∧
      optStrFieldOk
        (fun v => datasetPayload dt phys src desc rid fields tags v)
        "schemaLocation" ∧
      (datasetPayload dt phys src desc rid fields tags sl).lookup "type" =
        some (JValue.str dt.value) ∧
      (datasetPayload dt phys src desc rid fields tags sl).lookup
        "physicalName" = some (JValue.str phys) ∧
      (datasetPayload dt phys src desc rid fields tags sl).lookup
        "sourceName" = some (JValue.str src)) ∧
    (∀ (dt : DatasetType) (phys src rid : String) (desc sl : Option String)
      (fields : Option (List FieldDict)) (tags : Option (List String)),
      optStrFieldOk
        (fun v => MarquezClientWO.datasetPayloadWO dt phys src rid v fields
          tags sl) "description" ∧
      optListFieldOk
        (fun v => MarquezClientWO.datasetPayloadWO dt phys src rid desc v
          tags sl) "fields" JValue.fieldList ∧
      optListFieldOk
        (fun v => MarquezClientWO.datasetPayloadWO dt phys src rid desc
          fields v sl) "tags" JValue.strList ∧
      optStrFieldOk
        (fun v => MarquezClientWO.datasetPayloadWO dt phys src rid desc
          fields tags v) "schemaLocation" ∧
      (MarquezClientWO.datasetPayloadWO dt phys src rid desc fields tags
        sl).lookup "runId" = some (JValue.str rid)) ∧
    (∀ (jt : JobType) (loc : Option String)
      (ins outs : Option (List DatasetRef)) (desc : Option String)
      (ctx : Option (List (String × String))),
      optStrFieldOk (fun v => jobPayload jt v ins outs desc ctx)
        "location" ∧
      optStrFieldOk (fun v => jobPayload jt loc ins outs v ctx)
        "description" ∧
      optListFieldOk (fun v => jobPayload jt loc ins outs desc v)
        "context" JValue.strMap ∧
      (jobPayload jt loc ins outs desc ctx).lookup "inputs" =
        some (JValue.refList (ins.getD [])) ∧
      (jobPayload jt loc ins outs desc ctx).lookup "outputs" =
        some (JValue.refList (outs.getD [])) ∧
      (jobPayload jt loc ins outs desc ctx).lookup "type" =
        some (JValue.jobType jt)) ∧
    (∀ (jt : JobType) (loc : Option String)
      (ins outs : Option (List DatasetRef)) (desc : Option String)
      (ctx : Option (List (String × String))),
      optStrFieldOk
        (fun v => MarquezClientWO.jobPayloadWO jt v ins outs desc ctx)
        "location" ∧
      optStrFieldOk
        (fun v => MarquezClientWO.jobPayloadWO jt loc ins outs v ctx)
        "description" ∧
      optListFieldOk
        (fun v => MarquezClientWO.jobPayloadWO jt loc ins outs desc v)
        "context" JValue.strMap ∧
      (MarquezClientWO.jobPayloadWO jt loc ins outs desc ctx).lookup
        "inputs" = some (JValue.refList (ins.getD [])) ∧
      (MarquezClientWO.jobPayloadWO jt loc ins outs desc ctx).lookup
        "outputs" = some (JValue.refList (outs.getD [])) ∧
      (MarquezClientWO.jobPayloadWO jt loc ins outs desc ctx).lookup
        "type" = some (JValue.str jt.name)) ∧
    (∀ (nst net : Option String) (ra : Option (List (String × String))),
      optStrFieldOk (fun v => jobRunPayload v net ra)
        "nominalStartTime" ∧
      optStrFieldOk (fun v => jobRunPayload nst v ra)
        "nominalEndTime" ∧
      optListFieldOk (fun v => jobRunPayload nst net v)
        "runArgs" JValue.strMap) ∧
    (∀ base : String,
      (MarquezClient.mk base).create_namespace "ns1" "owner1" none =
        ⟨[⟨.PUT, base ++ "/namespaces/ns1",
          some [("ownerName", JValue.str "owner1")]⟩], none⟩) ∧
    MarquezClientWO.create_namespace "ns1" "owner1" none =
      ⟨[⟨.PUT, "/api/v1/namespaces/ns1",
        some [("ownerName", JValue.str "owner1")]⟩], none⟩ := by
  refine ⟨?_, ?_, ?_, ?_, ?_, ?_, ?_, ?_, by decide⟩
  · intro owner
    refine ⟨⟨?_, ?_⟩, ?_⟩
    · intro v hv
      simp [namespacePayload, optStrEntry_blank _ _ hv, lookup_append,
        List.lookup]
    · intro d hd
      simp [namespacePayload, lookup_append,
        lookup_optStrEntry_self _ _ hd, List.lookup]
    · intro desc
      simp [namespacePayload, lookup_append, lookup_optStrEntry_ne,
        List.lookup]
  · intro st curl
    refine ⟨⟨?_, ?_⟩, ?_⟩
    · intro v hv
      simp [sourcePayload, optStrEntry_blank _ _ hv, lookup_append,
        List.lookup]
    · intro d hd
      simp [sourcePayload, lookup_append, lookup_optStrEntry_self _ _ hd,
        List.lookup]
    · intro desc
      constructor <;>
        simp [sourcePayload, lookup_append, lookup_optStrEntry_ne,
          List.lookup]
  · intro dt phys src desc rid sl fields tags
    refine ⟨⟨?_, ?_⟩, ⟨?_, ?_⟩, ⟨?_, ?_⟩, ⟨?_, ?_⟩, ⟨?_, ?_⟩, ?_, ?_, ?_⟩
    · intro v hv
      simp [datasetPayload, optStrEntry_blank _ _ hv, lookup_append,
        lookup_optStrEntry_ne, lookup_optListEntry_ne, List.lookup]
    · intro d hd
      simp [datasetPayload, lookup_append, lookup_optStrEntry_ne,
        lookup_optListEntry_ne, lookup_optStrEntry_self _ _ hd,
        List.lookup]
    · intro v hv
      simp [datasetPayload, optStrEntry_blank _ _ hv, lookup_append,
        lookup_optStrEntry_ne, lookup_optListEntry_ne, List.lookup]
    · intro d hd
      simp [datasetPayload, lookup_append, lookup_optStrEntry_ne,
        lookup_optListEntry_ne, lookup_optStrEntry_self _ _ hd,
        List.lookup]
    · intro v hv
      simp [datasetPayload, optListEntry_blank _ _ _ hv, lookup_append,
        lookup_optStrEntry_ne, lookup_optListEntry_ne, List.lookup]
    · intro l hl
      simp [datasetPayload, lookup_append, lookup_optStrEntry_ne,
        lookup_optListEntry_ne, lookup_optListEntry_self _ _ _ hl,
        List.lookup]
    · intro v hv
      simp [datasetPayload, optListEntry_blank _ _ _ hv, lookup_append,
        lookup_optStrEntry_ne, lookup_optListEntry_ne, List.lookup]
    · intro l hl
      simp [datasetPayload, lookup_append, lookup_optStrEntry_ne,
        lookup_optListEntry_ne, lookup_optListEntry_self _ _ _ hl,
        List.lookup]
    · intro v hv
      simp [datasetPayload, optStrEntry_blank _ _ hv, lookup_append,
        lookup_optStrEntry_ne, lookup_optListEntry_ne, List.lookup]
    · intro d hd
      simp [datasetPayload, lookup_append, lookup_optStrEntry_ne,
        lookup_optListEntry_ne, lookup_optStrEntry_self _ _ hd,
        List.lookup]
    · simp [datasetPayload, lookup_append, List.lookup]
    · simp [datasetPayload, lookup_append, List.lookup]
    · simp [datasetPayload, lookup_append, List.lookup]
  · intro dt phys src rid desc sl fields tags
    refine ⟨⟨?_, ?_⟩, ⟨?_, ?_⟩, ⟨?_, ?_⟩, ⟨?_, ?_⟩, ?_⟩
    · intro v hv
      simp [MarquezClientWO.datasetPayloadWO, optStrEntry_blank _ _ hv,
        lookup_append, lookup_optStrEntry_ne, lookup_optListEntry_ne,
        List.lookup]
    · intro d hd
      simp [MarquezClientWO.datasetPayloadWO, lookup_append,
        lookup_optStrEntry_ne, lookup_optListEntry_ne,
        lookup_optStrEntry_self _ _ hd, List.lookup]
    · intro v hv
      simp [MarquezClientWO.datasetPayloadWO, optListEntry_blank _ _ _ hv,
        lookup_append, lookup_optStrEntry_ne, lookup_optListEntry_ne,
        List.lookup]
    · intro l hl
      simp [MarquezClientWO.datasetPayloadWO, lookup_append,
        lookup_optStrEntry_ne, lookup_optListEntry_ne,
        lookup_optListEntry_self _ _ _ hl, List.lookup]
    · intro v hv
      simp [MarquezClientWO.datasetPayloadWO, optListEntry_blank _ _ _ hv,
        lookup_append, lookup_optStrEntry_ne, lookup_optListEntry_ne,
        List.lookup]
    · intro l hl
      simp [MarquezClientWO.datasetPayloadWO, lookup_append,
        lookup_optStrEntry_ne, lookup_optListEntry_ne,
        lookup_optListEntry_self _ _ _ hl, List.lookup]
    · intro v hv
      simp [MarquezClientWO.datasetPayloadWO, optStrEntry_blank _ _ hv,
        lookup_append, lookup_optStrEntry_ne, lookup_optListEntry_ne,
        List.lookup]
    · intro d hd
      simp [MarquezClientWO.datasetPayloadWO, lookup_append,
        lookup_optStrEntry_ne, lookup_optListEntry_ne,
        lookup_optStrEntry_self _ _ hd, List.lookup]
    · simp [MarquezClientWO.datasetPayloadWO, lookup_append, List.lookup]
  · intro jt loc ins outs desc ctx
    refine ⟨⟨?_, ?_⟩, ⟨?_, ?_⟩, ⟨?_, ?_⟩, ?_, ?_, ?_⟩
    · intro v hv
      simp [jobPayload, optStrEntry_blank _ _ hv, lookup_append,
        lookup_optStrEntry_ne, lookup_optListEntry_ne, List.lookup]
    · intro d hd
      simp [jobPayload, lookup_append, lookup_optStrEntry_ne,
        lookup_optListEntry_ne, lookup_optStrEntry_self _ _ hd,
        List.lookup]
    · intro v hv
      simp [jobPayload, optStrEntry_blank _ _ hv, lookup_append,
        lookup_optStrEntry_ne, lookup_optListEntry_ne, List.lookup]
    · intro d hd
      simp [jobPayload, lookup_append, lookup_optStrEntry_ne,
        lookup_optListEntry_ne, lookup_optStrEntry_self _ _ hd,
        List.lookup]
    · intro v hv
      simp [jobPayload, optListEntry_blank _ _ _ hv, lookup_append,
        lookup_optStrEntry_ne, lookup_optListEntry_ne, List.lookup]
    · intro l hl
      simp [jobPayload, lookup_append, lookup_optStrEntry_ne,
        lookup_optListEntry_ne, lookup_optListEntry_self _ _ _ hl,
        List.lookup]
    · simp [jobPayload, lookup_append, List.lookup]
    · simp [jobPayload, lookup_append, List.lookup]
    · simp [jobPayload, lookup_append, List.lookup]
  · intro jt loc ins outs desc ctx
    refine ⟨⟨?_, ?_⟩, ⟨?_, ?_⟩, ⟨?_, ?_⟩, ?_, ?_, ?_⟩
    · intro v hv
      simp [MarquezClientWO.jobPayloadWO, optStrEntry_blank _ _ hv,
        lookup_append, lookup_optStrEntry_ne, lookup_optListEntry_ne,
        List.lookup]
    · intro d hd
      simp [MarquezClientWO.jobPayloadWO, lookup_append,
        lookup_optStrEntry_ne, lookup_optListEntry_ne,
        lookup_optStrEntry_self _ _ hd, List.lookup]
    · intro v hv
      simp [MarquezClientWO.jobPayloadWO, optStrEntry_blank _ _ hv,
        lookup_append, lookup_optStrEntry_ne, lookup_optListEntry_ne,
        List.lookup]
    · intro d hd
      simp [MarquezClientWO.jobPayloadWO, lookup_append,
        lookup_optStrEntry_ne, lookup_optListEntry_ne,
        lookup_optStrEntry_self _ _ hd, List.lookup]
    · intro v hv
      simp [MarquezClientWO.jobPayloadWO, optListEntry_blank _ _ _ hv,
        lookup_append, lookup_optStrEntry_ne, lookup_optListEntry_ne,
        List.lookup]
    · intro l hl
      simp [MarquezClientWO.jobPayloadWO, lookup_append,
        lookup_optStrEntry_ne, lookup_optListEntry_ne,
        lookup_optListEntry_self _ _ _ hl, List.lookup]
    · simp [MarquezClientWO.jobPayloadWO, lookup_append, List.lookup]
    · simp [MarquezClientWO.jobPayloadWO, lookup_append, List.lookup]
    · simp [MarquezClientWO.jobPayloadWO, lookup_append, List.lookup]
  · intro nst net ra
    refine ⟨⟨?_, ?_⟩, ⟨?_, ?_⟩, ⟨?_, ?_⟩⟩
    · intro v hv
      simp [jobRunPayload, optStrEntry_blank _ _ hv, lookup_append,
        lookup_optStrEntry_ne, lookup_optListEntry_ne, List.lookup]
    · intro d hd
      simp [jobRunPayload, lookup_append, lookup_optStrEntry_ne,
        lookup_optListEntry_ne, lookup_optStrEntry_self _ _ hd,
        List.lookup]
    · intro v hv
      simp [jobRunPayload, optStrEntry_blank _ _ hv, lookup_append,
        lookup_optStrEntry_ne, lookup_optListEntry_ne, List.lookup]
    · intro d hd
      simp [jobRunPayload, lookup_append, lookup_optStrEntry_ne,
        lookup_optListEntry_ne, lookup_optStrEntry_self _ _ hd,
        List.lookup]
    · intro v hv
      simp [jobRunPayload, optListEntry_blank _ _ _ hv, lookup_append,
        lookup_optStrEntry_ne, lookup_optListEntry_ne, List.lookup]
    · intro l hl
      simp [jobRunPayload, lookup_append, lookup_optStrEntry_ne,
        lookup_optListEntry_ne, lookup_optListEntry_self _ _ _ hl,
        List.lookup]
  · intro base
    have hurl : url base "/namespaces/{0}" ["ns1"] =
        base ++ "/namespaces/ns1" := by
      rw [url]; congr 1
    simp [MarquezClient.create_namespace, checked, checkedThen, firstErr,
      checkNotNone, checkMaxLen, NAMESPACE_LENGTH_LIMIT, namespacePayload,
      optStrEntry, hurl, show ¬(1024 < ("ns1" : String).length) by decide]

/-- Witness for C7: the omission contract at concrete inputs, and the
end-to-end example at a concrete base URL. -/
theorem C7_optional_field_omission_witness :
    (namespacePayload "owner1" none).lookup "description" = none ∧
    (namespacePayload "owner1" (some "text")).lookup "description" =
      some (JValue.str "text") ∧
    (MarquezClient.mk "http://localhost:5000/api/v1").create_namespace
        "ns1" "owner1" none =
      ⟨[⟨.PUT, "http://localhost:5000/api/v1" ++ "/namespaces/ns1",
        some [("ownerName", JValue.str "owner1")]⟩], none⟩ :=
  ⟨((C7_optional_field_omission.1 "owner1").1).1 none (by decide),
   ((C7_optional_field_omission.1 "owner1").1).2 "text" (by decide),
   C7_optional_field_omission.2.2.2.2.2.2.2.1
     "http://localhost:5000/api/v1"⟩

/-- Counterexample to C7 as stated: `create_job` with `input_dataset`
omitted (None) still shapes a payload carrying the `inputs` key (value
`[]`), in both personalities — an omitted optional field that does
appear in the mapping. -/
theorem C7_counterexample :
    (jobPayload JobType.BATCH none none none none none).lookup "inputs" =
      some (JValue.refList []) ∧
    MarquezClientWO.create_job "n" "j" JobType.BATCH none none none none
        none =
      ⟨[⟨.PUT, "/api/v1/namespaces/n/jobs/j",
        some [("inputs", JValue.refList []), ("outputs", JValue.refList []),
          ("type", JValue.str "BATCH")]⟩], none⟩ := by
  decide

/-! ### Claim C8 -/

/-- **C8** (corrected).  `create_namespace` dispatches exactly when its
validated preconditions hold, and any violating call raises before any
request: the write-only personality requires both `namespace_name` and
`owner_name` non-empty and ≤ 64 characters, but the query-capable
personality requires only `namespace_name` non-empty and ≤ 1024 and
`owner_name` non-empty — it puts *no length bound at all* on
`owner_name`, so the original claim's "both names within the
personality's length bound" fails there (see the counterexample with a
1025-character owner). -/
theorem C8_create_namespace_dispatch_guard :
    (∀ (c : MarquezClient) (ns owner : String) (desc : Option String),
      ((c.create_namespace ns owner desc).error = none ↔
        ns ≠ "" ∧ ns.length ≤ 1024 ∧ owner ≠ "") ∧
      ((c.create_namespace ns owner desc).error = none →
        (c.create_namespace ns owner desc).dispatched =
          [⟨.PUT, url c.api_base "/namespaces/{0}" [ns],
            some (namespacePayload owner desc)⟩]) ∧
      ((c.create_namespace ns owner desc).error ≠ none →
        (c.create_namespace ns owner desc).dispatched = [])) ∧
    (∀ (ns owner : String) (desc : Option String),
      ((MarquezClientWO.create_namespace ns owner desc).error = none ↔
        ns ≠ "" ∧ ns.length ≤ 64 ∧ owner ≠ "" ∧ owner.length ≤ 64) ∧
      ((MarquezClientWO.create_namespace ns owner desc).error = none →
        (MarquezClientWO.create_namespace ns owner desc).dispatched =
          [⟨.PUT, url MarquezClientWO.API_PATH "/namespaces/{0}" [ns],
            some (namespacePayload owner desc)⟩]) ∧
      ((MarquezClientWO.create_namespace ns owner desc).error ≠ none →
        (MarquezClientWO.create_namespace ns owner desc).dispatched =
          [])) := by
  constructor
  · intro c ns owner desc
    by_cases hns0 : ns = ""
    · subst hns0
      simp [MarquezClient.create_namespace, checked, checkedThen, firstErr,
        checkNotNone, checkMaxLen]
    · by_cases hnsl : ns.length > 1024
      · simp [MarquezClient.create_namespace, checked, checkedThen,
          firstErr, checkNotNone, checkMaxLen, NAMESPACE_LENGTH_LIMIT,
          hns0, hnsl]
      · by_cases how0 : owner = ""
        · subst how0
          simp [MarquezClient.create_namespace, checked, checkedThen,
            firstErr, checkNotNone, checkMaxLen, NAMESPACE_LENGTH_LIMIT,
            hns0, hnsl]
        · simp [MarquezClient.create_namespace, checked, checkedThen,
            firstErr, checkNotNone, checkMaxLen, NAMESPACE_LENGTH_LIMIT,
            hns0, hnsl, how0]
          omega
  · intro ns owner desc
    by_cases hns0 : ns = ""
    · subst hns0
      simp [MarquezClientWO.create_namespace, checked, checkedThen,
        firstErr, MarquezClientWO.check_name_length,
        MarquezClientWO.is_none]
    · by_cases hnsl : ns.length > 64
      · simp [MarquezClientWO.create_namespace, checked, checkedThen,
          firstErr, MarquezClientWO.check_name_length,
          MarquezClientWO.is_none, hns0, hnsl]
      · by_cases how0 : owner = ""
        · subst how0
          simp [MarquezClientWO.create_namespace, checked, checkedThen,
            firstErr, MarquezClientWO.check_name_length,
            MarquezClientWO.is_none, hns0, hnsl]
        · by_cases howl : owner.length > 64
          · simp [MarquezClientWO.create_namespace, checked, checkedThen,
              firstErr, MarquezClientWO.check_name_length,
              MarquezClientWO.is_none, hns0, hnsl, how0, howl]
          · simp [MarquezClientWO.create_namespace, checked, checkedThen,
              firstErr, MarquezClientWO.check_name_length,
              MarquezClientWO.is_none, hns0, hnsl, how0, howl]
            omega

/-- Witness for C8: a valid call dispatches in the query personality; a
65-character owner is rejected before dispatch by the write-only
personality. -/
theorem C8_create_namespace_dispatch_guard_witness :
    ((MarquezClient.mk "b").create_namespace "ns" "owner1" none).error =
      none ∧
    (MarquezClientWO.create_namespace "ns" (longA 65) none).error ≠ none ∧
    (MarquezClientWO.create_namespace "ns" (longA 65) none).dispatched =
      [] := by
  have hs := C8_create_namespace_dispatch_guard.1 ⟨"b"⟩ "ns" "owner1" none
  have hw := C8_create_namespace_dispatch_guard.2 "ns" (longA 65) none
  have hne : (MarquezClientWO.create_namespace "ns" (longA 65) none).error
      ≠ none := by
    intro h
    exact absurd (hw.1.mp h).2.2.2 (by decide)
  exact ⟨hs.1.mpr ⟨by decide, by decide, by decide⟩, hne, hw.2.2 hne⟩

set_option maxRecDepth 100000 in
/-- Counterexample to C8 as stated: the query-capable `create_namespace`
with a 1025-character owner name — over any of the personalities' length
bounds — raises nothing and dispatches the `PUT`. -/
theorem C8_counterexample :
    (longA 1025).length > 1024 ∧
      (MarquezClient.mk "b").create_namespace "ns" (longA 1025) none =
        ⟨[⟨.PUT, "b/namespaces/ns",
          some [("ownerName", JValue.str (longA 1025))]⟩], none⟩ := by
  decide

/-! ### Claim C9 -/

/-- Python equality of a port value against an integer literal holds
exactly for that integer — a string port value never compares equal. -/
theorem PyPort.eqInt_iff (p : PyPort) (k : Int) :
    p.eqInt k = true ↔ p = .pint k := by
  cases p <;> simp [PyPort.eqInt]

/-- **C9** (corrected).  The built base URL omits the port segment
exactly when the effective port is *falsy* (absent, `0`, or the empty
string) or compares Python-equal to the integers `8080` or `80`;
otherwise the segment appears.  Because an environment-derived port is a
string and a string never compares equal to an integer, the omission
convention only takes effect for explicit integer ports: any non-empty
`MARQUEZ_PORT` value — including `"8080"` — is always rendered into the
URL, contradicting the original claim's "holds … from the
environment-derived fallback" (see the counterexample). -/
theorem C9_port_segment_omission :
    (∀ (protocol host : String) (port : PyPort),
      (apiBaseOf protocol host port =
          protocol ++ "://" ++ host ++ "/" ++ "api/v1" ↔
        (port.truthy = false ∨ port = .pint 8080 ∨ port = .pint 80)) ∧
      (¬(port.truthy = false ∨ port = .pint 8080 ∨ port = .pint 80) →
        apiBaseOf protocol host port =
          protocol ++ "://" ++ host ++ ":" ++ port.render ++ "/" ++
            "api/v1")) ∧
    (∀ (protocol host : String) (portArg : Option PyPort)
      (envPort : Option String) (defaultPort : PyPort),
      initApiBase protocol host portArg envPort defaultPort =
        apiBaseOf protocol host
          (effectivePort portArg envPort defaultPort)) ∧
    (∀ (protocol host s : String) (d : PyPort), s ≠ "" →
      initApiBase protocol host none (some s) d =
        protocol ++ "://" ++ host ++ ":" ++ s ++ "/" ++ "api/v1") := by
  refine ⟨?_, fun _ _ _ _ _ => rfl, ?_⟩
  · intro protocol host port
    have hcond : (¬ port.truthy ∨ port.eqInt 8080 ∨ port.eqInt 80) ↔
        (port.truthy = false ∨ port = .pint 8080 ∨ port = .pint 80) := by
      simp [PyPort.eqInt_iff, Bool.not_eq_true]
    constructor
    · constructor
      · intro heq
        by_contra hc
        rw [apiBaseOf, if_neg (fun hx => hc (hcond.mp hx))] at heq
        have hlen := congrArg String.length heq
        simp only [String.length_append] at hlen
        have hD : (":" : String).length = 1 := rfl
        omega
      · intro hcnd
        rw [apiBaseOf, if_pos (hcond.mpr hcnd)]
    · intro hc
      rw [apiBaseOf, if_neg (fun hx => hc (hcond.mp hx))]
  · intro protocol host s d hs
    simp [initApiBase, effectivePort, apiBaseOf, PyPort.truthy,
      PyPort.eqInt, PyPort.render, hs]

/-- Witness for C9: an explicit integer 8080 omits the segment, an
explicit 5000 includes it, and an environment-derived `"9"` includes
it. -/
theorem C9_port_segment_omission_witness :
    apiBaseOf "http" "h" (.pint 8080) = "http://h/api/v1" ∧
    apiBaseOf "http" "h" (.pint 5000) = "http://h:5000/api/v1" ∧
    initApiBase "http" "h" none (some "9") (.pint 1) =
      "http://h:9/api/v1" := by
  refine ⟨?_, ?_, ?_⟩
  · rw [(C9_port_segment_omission.1 "http" "h" (.pint 8080)).1.mpr
      (Or.inr (Or.inl rfl))]
    decide
  · rw [(C9_port_segment_omission.1 "http" "h" (.pint 5000)).2
      (by decide)]
    decide
  · rw [C9_port_segment_omission.2.2 "http" "h" "9" (.pint 1) (by decide)]
    decide

/-- Counterexample to C9 as stated: with no explicit port and
`MARQUEZ_PORT=8080`, the effective port is numerically the standard
8080, yet the built base URL *includes* `:8080` (while the explicit
integer `8080` omits it). -/
theorem C9_counterexample :
    (effectivePort none (some "8080") (.pint 5000)).numVal = some 8080 ∧
      initApiBase "http" "localhost" none (some "8080") (.pint 5000) =
        "http://localhost:8080/api/v1" ∧
      initApiBase "http" "localhost" (some (.pint 8080)) none (.pint 5000)
        = "http://localhost/api/v1" := by
  refine ⟨by decide, by decide, by decide⟩

/-! ### Claim C10 -/

/-- **C10** (confirmed).  For identical inputs, the two personalities'
`create_job` payload blocks disagree on the `'type'` field: the
write-only client stores the canonical name string `job_type.name`,
while the query-capable client stores the `JobType` enum member itself —
a value distinct from every string — so the shaped payload mappings are
never equal. -/
theorem C10_job_type_field_divergence (jt : JobType) (loc : Option String)
    (ins outs : Option (List DatasetRef)) (desc : Option String)
    (ctx : Option (List (String × String))) :
    (jobPayload jt loc ins outs desc ctx).lookup "type" =
      some (JValue.jobType jt) ∧
    (MarquezClientWO.jobPayloadWO jt loc ins outs desc ctx).lookup "type" =
      some (JValue.str jt.name) ∧
    (∀ s : String, JValue.jobType jt ≠ JValue.str s) ∧
    jobPayload jt loc ins outs desc ctx ≠
      MarquezClientWO.jobPayloadWO jt loc ins outs desc ctx := by
  have h1 : (jobPayload jt loc ins outs desc ctx).lookup "type" =
      some (JValue.jobType jt) := by
    simp [jobPayload, lookup_append, List.lookup]
  have h2 : (MarquezClientWO.jobPayloadWO jt loc ins outs desc
      ctx).lookup "type" = some (JValue.str jt.name) := by
    simp [MarquezClientWO.jobPayloadWO, lookup_append, List.lookup]
  refine ⟨h1, h2, fun s h => JValue.noConfusion h, ?_⟩
  intro he
  have hl := congrArg (List.lookup "type") he
  rw [h1, h2] at hl
  exact JValue.noConfusion (Option.some.inj hl)

/-- Witness for C10 at the `BATCH` job type with all optional arguments
omitted. -/
theorem C10_job_type_field_divergence_witness :
    (jobPayload JobType.BATCH none none none none none).lookup "type" =
      some (JValue.jobType JobType.BATCH) ∧
    (MarquezClientWO.jobPayloadWO JobType.BATCH none none none none
      none).lookup "type" = some (JValue.str "BATCH") ∧
    jobPayload JobType.BATCH none none none none none ≠
      MarquezClientWO.jobPayloadWO JobType.BATCH none none none none
        none :=
  ⟨(C10_job_type_field_divergence JobType.BATCH none none none none
      none).1,
   (C10_job_type_field_divergence JobType.BATCH none none none none
      none).2.1,
   (C10_job_type_field_divergence JobType.BATCH none none none none
      none).2.2.2⟩

end Marquez
